import Mathlib

/-
Verification of the bike-geometry engine (calculateBikeGeometry and its
helpers) against its natural-language specification.

The engine is shallowly embedded over the real numbers: every JavaScript
number becomes a real, Math.sqrt becomes Real.sqrt, Math.acos becomes
Real.arccos (the source always clamps the argument to the interval from
minus one to one first, so the two agree on every reachable call),
Math.atan2 y x becomes the argument of the complex number x + y i, and the
point map (a string-keyed record in the source) becomes an association
list with string keys.  All keys in the map are distinct, so the order of
entries is irrelevant to lookups; the conditionally inserted handlebar-arc
entries are appended after the unconditional ones.

A second, Option-valued copy of the numeric pipeline (the Checked
definitions) makes the partiality of the floating-point operations
observable: division returns none on a zero denominator, square root
returns none on a negative argument, arccos returns none outside the
interval from minus one to one.  These are exactly the operations that
produce NaN or infinite values in the source language on finite inputs.
-/

noncomputable section

namespace BikeGeo

/-- A 2D point in SVG coordinates (x to the right, y downwards). -/
@[ext]
structure Point2D where
  x : ℝ
  y : ℝ

/-- A connection between two named points (a line in the SVG).  The field
names in the source are from and to; from is a reserved word in Lean, so
the fields are named fromId and toId here. -/
structure Segment where
  fromId : String
  toId : String
deriving DecidableEq

/-- Hand position on the handlebar (hoods or drops), from types/bike.ts. -/
inductive HandPosition where
  | hoods : HandPosition
  | drops : HandPosition
deriving DecidableEq

/-- Frame geometry, from types/bike.ts.  All fields are required numbers
there, so the destructuring defaults in the engine never apply. -/
structure BikeGeometry where
  stack : ℝ
  reach : ℝ
  headTubeAngle : ℝ
  seatTubeAngle : ℝ
  forkLength : ℝ
  bbDrop : ℝ
  headTubeLength : ℝ
  seatTubeLength : ℝ
  chainstayLength : ℝ
  frontCenter : ℝ

/-- Cockpit setup, from types/bike.ts. -/
structure CockpitSetup where
  spacerHeight : ℝ
  headsetCap : ℝ
  stemLength : ℝ
  stemAngle : ℝ
  handlebarReach : ℝ
  handlebarDrop : ℝ
  crankLength : ℝ
  pedalAngle : ℝ
  handPosition : HandPosition
  seatPostLength : ℝ

/-- Rider anthropometry, from types/bike.ts. -/
structure RiderSetup where
  riderHeight : ℝ
  riderInseam : ℝ
  torsoAngle : ℝ
  shoeThickness : ℝ

/-- Complete engine input, from types/bike.ts. -/
structure BikeData where
  brand : String
  model : String
  size : String
  geometry : BikeGeometry
  cockpit : CockpitSetup
  rider : RiderSetup

/-- Alignment mode, from types/bike.ts.  The engine receives it but never
reads it. -/
inductive AlignmentMode where
  | bb : AlignmentMode
  | rear : AlignmentMode
deriving DecidableEq

/-- Engine output.  In the source the metric fields are optional but the
engine always fills all of them, so they are plain fields here. -/
structure BikeGeometryResult where
  points : List (String × Point2D)
  segments : List Segment
  riderSegments : List Segment
  kneeAngle : ℝ
  kneeAngleAt90 : ℝ
  kneeAngleAt270 : ℝ
  saddleHandlebarDrop : ℝ
  kneeTopedalXAt0 : ℝ
  shoulderAngle : ℝ
  elbowAngle : ℝ

/-- Scale factor from millimetres to SVG units. -/
def SCALE : ℝ := 0.8

/-- Headset bearing diameter in millimetres. -/
def HEADSET_BEARING_DIAMETER : ℝ := 31.8

/-- Number of interpolation steps of the handlebar-drop arc. -/
def HANDLEBAR_ARC_STEPS : ℕ := 12

/-- Saddle length in millimetres. -/
def SADDLE_LENGTH : ℝ := 255

/-- Saddle setback in millimetres. -/
def SADDLE_SETBACK : ℝ := 40

/-- Total width of the drawn pedal in millimetres. -/
def PEDAL_WIDTH : ℝ := 50

/-- Lower leg as a fraction of the inseam (LOWER_LEG_RATIO in the source;
renamed to camel case here). -/
def lowerLegRatio : ℝ := 0.44

/-- Upper leg as a fraction of the inseam (UPPER_LEG_RATIO in the source). -/
def upperLegRatio : ℝ := 0.56

/-- Head height as a fraction of rider height (HEAD_RATIO in the source). -/
def headRatio : ℝ := 0.12

/-- Neck length as a fraction of rider height (NECK_RATIO in the source). -/
def neckRatio : ℝ := 0.055

/-- Upper arm as a fraction of rider height (UPPER_ARM_RATIO in the source). -/
def upperArmRatio : ℝ := 0.186

/-- Lower arm as a fraction of rider height (LOWER_ARM_RATIO in the source). -/
def lowerArmRatio : ℝ := 0.146

/-- Distance from the pedal axle back to the ball of the foot, millimetres. -/
def CLEAT_SETBACK : ℝ := 130

/-- Default foot angle in degrees. -/
def FOOT_ANGLE_DEFAULT : ℝ := 10

/-- Converts degrees to radians. -/
def toRadians (degrees : ℝ) : ℝ := degrees * Real.pi / 180

/-- Horizontal distance from hypotenuse and vertical offset, with the
max-zero guard before the square root, as in the source. -/
def calculateHorizontalDistance (hypotenuse verticalOffset : ℝ) : ℝ :=
  Real.sqrt (max 0 (hypotenuse * hypotenuse - verticalOffset * verticalOffset))

/-- The two-argument arctangent: Math.atan2 y x is the argument of the
complex number with real part x and imaginary part y. -/
def atan2 (y x : ℝ) : ℝ := Complex.arg ⟨x, y⟩

/-- Lookup of a named point in the point map. -/
def lookupPoint (ps : List (String × Point2D)) (id : String) : Option Point2D :=
  (ps.find? fun p => p.1 == id).map Prod.snd

/-- The two-link inverse-kinematics step shared (inlined, with identical
structure) by the four IK sites of the source: given a base joint (foot or
shoulder), a target joint (hip or hand), the segment length b adjacent to
the base and the segment length c adjacent to the target, produce the
middle joint (knee or elbow).  Three cases: overstretched, too close,
normal two-circle intersection via the law of cosines with the arccos
argument clamped. -/
def ikJoint (base target : Point2D) (b c : ℝ) : Point2D :=
  let dx := target.x - base.x
  let dy := target.y - base.y
  let dist := Real.sqrt (dx * dx + dy * dy)
  if dist > b + c then
    let ratio := b / (b + c)
    ⟨base.x + dx * ratio, base.y + dy * ratio⟩
  else if dist < |b - c| then
    ⟨(base.x + target.x) / 2, (base.y + target.y) / 2⟩
  else
    let cosAlpha := (dist * dist + b * b - c * c) / (2 * dist * b)
    let alpha := Real.arccos (max (-1) (min 1 cosAlpha))
    let baseAngle := atan2 dy dx
    ⟨base.x + b * Real.cos (baseAngle + alpha), base.y + b * Real.sin (baseAngle + alpha)⟩

/-- Interior angle at a joint between the directions towards two other
points, in degrees, computed exactly as in the source: absolute difference
of the two atan2 angles, reflected into the interval from 0 to 180. -/
def angleAtJoint (joint first second : Point2D) : ℝ :=
  let a1 := atan2 (first.y - joint.y) (first.x - joint.x)
  let a2 := atan2 (second.y - joint.y) (second.x - joint.x)
  let d := |(a2 - a1) * 180 / Real.pi|
  if d > 180 then 360 - d else d

/-- The helper calculateKneeAngleAtPedalAngle of the source: recomputes
pedal, foot, hip joint and knee for a given crank angle (without the
stretch correction of the main path) and returns the knee angle. -/
def calculateKneeAngleAtPedalAngle (pedalAngleDeg crankLength : ℝ)
    (seatPos bbPos : Point2D)
    (riderInseam cleatDrop hipJointOffsetScaled torsoAngleRad : ℝ) : ℝ :=
  let pedalAngleRad := toRadians pedalAngleDeg
  let crankScaled := crankLength * SCALE
  let pedalPos : Point2D :=
    ⟨bbPos.x + Real.cos pedalAngleRad * crankScaled,
     bbPos.y + Real.sin pedalAngleRad * crankScaled⟩
  let cleatSetback := CLEAT_SETBACK * SCALE
  let cleatDropScaled := cleatDrop * SCALE
  let baseDynamicFootAngle := FOOT_ANGLE_DEFAULT * (1 + Real.sin pedalAngleRad) / 2
  let footAngleRad := toRadians baseDynamicFootAngle
  let cleatBottomPos : Point2D := ⟨pedalPos.x, pedalPos.y - cleatDropScaled⟩
  let footPos : Point2D :=
    ⟨cleatBottomPos.x - cleatSetback * Real.cos footAngleRad,
     cleatBottomPos.y - cleatSetback * Real.sin footAngleRad⟩
  let hipJointPos : Point2D :=
    ⟨seatPos.x + hipJointOffsetScaled * Real.cos torsoAngleRad,
     seatPos.y - hipJointOffsetScaled * Real.sin torsoAngleRad⟩
  let anatomicalInseam := riderInseam + hipJointOffsetScaled / SCALE
  let lowerLegLength := anatomicalInseam * lowerLegRatio * SCALE
  let upperLegLength := anatomicalInseam * upperLegRatio * SCALE
  let kneePos := ikJoint footPos hipJointPos lowerLegLength upperLegLength
  angleAtJoint kneePos footPos hipJointPos

/-- Top of the head tube, from stack and reach. -/
def headTubeTop (bike : BikeData) : Point2D :=
  ⟨bike.geometry.reach * SCALE, -bike.geometry.stack * SCALE⟩

/-- Head tube angle in radians. -/
def headTubeAngleRad (bike : BikeData) : ℝ := toRadians bike.geometry.headTubeAngle

/-- Bottom of the head tube, along the head-tube angle. -/
def headTubeBottom (bike : BikeData) : Point2D :=
  ⟨(headTubeTop bike).x + Real.cos (headTubeAngleRad bike) * (bike.geometry.headTubeLength * SCALE),
   (headTubeTop bike).y + Real.sin (headTubeAngleRad bike) * (bike.geometry.headTubeLength * SCALE)⟩

/-- Seat tube angle in radians. -/
def seatTubeAngleRad (bike : BikeData) : ℝ := toRadians bike.geometry.seatTubeAngle

/-- Top of the seat tube, backwards and upwards from the bottom bracket. -/
def seatTubeTop (bike : BikeData) : Point2D :=
  ⟨-(Real.cos (seatTubeAngleRad bike)) * (bike.geometry.seatTubeLength * SCALE),
   -(Real.sin (seatTubeAngleRad bike)) * (bike.geometry.seatTubeLength * SCALE)⟩

/-- Common vertical coordinate of both wheel centres. -/
def wheelY (bike : BikeData) : ℝ := -bike.geometry.bbDrop * SCALE

/-- Front wheel centre, horizontal offset from the front-center distance. -/
def frontWheel (bike : BikeData) : Point2D :=
  ⟨|calculateHorizontalDistance (bike.geometry.frontCenter * SCALE) (wheelY bike)|,
   wheelY bike⟩

/-- Rear wheel centre, horizontal offset from the chainstay length. -/
def rearWheel (bike : BikeData) : Point2D :=
  ⟨-|calculateHorizontalDistance (bike.geometry.chainstayLength * SCALE) (wheelY bike)|,
   wheelY bike⟩

/-- Height of the spacer stack above the head tube. -/
def spacerStackHeight (bike : BikeData) : ℝ :=
  (bike.cockpit.spacerHeight + bike.cockpit.headsetCap + HEADSET_BEARING_DIAMETER / 2) * SCALE

/-- Top of the spacer stack. -/
def spacerUp (bike : BikeData) : Point2D :=
  ⟨(headTubeTop bike).x - spacerStackHeight bike * Real.cos (headTubeAngleRad bike),
   (headTubeTop bike).y - spacerStackHeight bike * Real.sin (headTubeAngleRad bike)⟩

/-- Combined stem direction angle. -/
def stemAngleTotal (bike : BikeData) : ℝ :=
  headTubeAngleRad bike - toRadians bike.cockpit.stemAngle

/-- Front end of the stem. -/
def stemFront (bike : BikeData) : Point2D :=
  ⟨(spacerUp bike).x + Real.sin (stemAngleTotal bike) * (bike.cockpit.stemLength * SCALE),
   (spacerUp bike).y + -(Real.cos (stemAngleTotal bike)) * (bike.cockpit.stemLength * SCALE)⟩

/-- Centre of the handlebar. -/
def handlebarCenter (bike : BikeData) : Point2D :=
  ⟨(stemFront bike).x + bike.cockpit.handlebarReach * SCALE, (stemFront bike).y⟩

/-- The handlebar-drop arc: returns the arc points and arc segments to be
added to the result, or nothing when the drop is negligible.  The source
mutates the point map and segment list in place; here the additions are
returned as a pair.  The source reads the handlebar centre from the point
map; here it is passed directly. -/
def createHandlebarArc (center : Point2D) (handlebarDrop : ℝ) :
    List (String × Point2D) × List Segment :=
  let dropScaled := handlebarDrop * SCALE
  if |dropScaled| < 0.001 then ([], [])
  else
    let radius := |dropScaled| / 2
    let arcCenterY := center.y + Real.sign dropScaled * radius
    let arcPts := (List.range (HANDLEBAR_ARC_STEPS + 1)).map fun (i : ℕ) =>
      ("handlebarArc" ++ toString i,
       (⟨center.x + radius * Real.cos (-Real.pi / 2 + ((i : ℝ) / (HANDLEBAR_ARC_STEPS : ℝ)) * Real.pi),
         arcCenterY + radius * Real.sin (-Real.pi / 2 + ((i : ℝ) / (HANDLEBAR_ARC_STEPS : ℝ)) * Real.pi)⟩ : Point2D))
    let arcSegs := ({ fromId := "handlebarCenter", toId := "handlebarArc0" } : Segment) ::
      (List.range HANDLEBAR_ARC_STEPS).map fun i =>
        ({ fromId := "handlebarArc" ++ toString i,
           toId := "handlebarArc" ++ toString (i + 1) } : Segment)
    (arcPts, arcSegs)

/-- The arc additions for a given bike. -/
def arcData (bike : BikeData) : List (String × Point2D) × List Segment :=
  createHandlebarArc (handlebarCenter bike) bike.cockpit.handlebarDrop

/-- End point of the handlebar arc, when it exists (the source checks
whether the key handlebarArc12 is present in the point map). -/
def handlebarDropEnd (bike : BikeData) : Option Point2D :=
  lookupPoint (arcData bike).1 ("handlebarArc" ++ toString HANDLEBAR_ARC_STEPS)

/-- Top of the seatpost, extending the seat tube direction. -/
def seatPostTop (bike : BikeData) : Point2D :=
  ⟨(seatTubeTop bike).x - Real.cos (seatTubeAngleRad bike) * (bike.cockpit.seatPostLength * SCALE),
   (seatTubeTop bike).y - Real.sin (seatTubeAngleRad bike) * (bike.cockpit.seatPostLength * SCALE)⟩

/-- Forward end of the drawn saddle. -/
def saddleLenFwd (bike : BikeData) : Point2D :=
  ⟨(seatPostTop bike).x + SADDLE_LENGTH * SCALE / 2 - SADDLE_SETBACK * SCALE,
   (seatPostTop bike).y⟩

/-- Rear end of the drawn saddle. -/
def saddleLenAft (bike : BikeData) : Point2D :=
  ⟨(saddleLenFwd bike).x - SADDLE_LENGTH * SCALE, (saddleLenFwd bike).y⟩

/-- Saddle centre after setback. -/
def saddleTop (bike : BikeData) : Point2D :=
  ⟨(seatPostTop bike).x - SADDLE_SETBACK * SCALE, (seatPostTop bike).y⟩

/-- Pedal angle in radians. -/
def pedalAngleRad (bike : BikeData) : ℝ := toRadians bike.cockpit.pedalAngle

/-- Right pedal axle (the bottom bracket is the origin). -/
def pedalRight (bike : BikeData) : Point2D :=
  ⟨Real.cos (pedalAngleRad bike) * (bike.cockpit.crankLength * SCALE),
   Real.sin (pedalAngleRad bike) * (bike.cockpit.crankLength * SCALE)⟩

/-- Left pedal axle, opposite the right crank. -/
def pedalLeft (bike : BikeData) : Point2D :=
  ⟨Real.cos (pedalAngleRad bike + Real.pi) * (bike.cockpit.crankLength * SCALE),
   Real.sin (pedalAngleRad bike + Real.pi) * (bike.cockpit.crankLength * SCALE)⟩

/-- Left end of the drawn right pedal. -/
def pedalRightTop (bike : BikeData) : Point2D :=
  ⟨(pedalRight bike).x - PEDAL_WIDTH / 2 * SCALE, (pedalRight bike).y⟩

/-- Right end of the drawn right pedal. -/
def pedalRightBottom (bike : BikeData) : Point2D :=
  ⟨(pedalRight bike).x + PEDAL_WIDTH / 2 * SCALE, (pedalRight bike).y⟩

/-- Left end of the drawn left pedal. -/
def pedalLeftTop (bike : BikeData) : Point2D :=
  ⟨(pedalLeft bike).x - PEDAL_WIDTH / 2 * SCALE, (pedalLeft bike).y⟩

/-- Right end of the drawn left pedal. -/
def pedalLeftBottom (bike : BikeData) : Point2D :=
  ⟨(pedalLeft bike).x + PEDAL_WIDTH / 2 * SCALE, (pedalLeft bike).y⟩

/-- Lower leg length in SVG units (main path, from the raw inseam). -/
def lowerLegLength (bike : BikeData) : ℝ :=
  bike.rider.riderInseam * lowerLegRatio * SCALE

/-- Upper leg length in SVG units (main path, from the raw inseam). -/
def upperLegLength (bike : BikeData) : ℝ :=
  bike.rider.riderInseam * upperLegRatio * SCALE

/-- Total leg length in SVG units (main path). -/
def totalLegLength (bike : BikeData) : ℝ := lowerLegLength bike + upperLegLength bike

/-- Distance from the right pedal to the saddle centre. -/
def distPedalToSeat (bike : BikeData) : ℝ :=
  Real.sqrt (((saddleTop bike).x - (pedalRight bike).x) * ((saddleTop bike).x - (pedalRight bike).x) +
    ((saddleTop bike).y - (pedalRight bike).y) * ((saddleTop bike).y - (pedalRight bike).y))

/-- Stretch factor of the leg. -/
def stretch (bike : BikeData) : ℝ := distPedalToSeat bike / totalLegLength bike

/-- Dynamic foot angle from the crank position. -/
def baseDynamicFootAngle (bike : BikeData) : ℝ :=
  FOOT_ANGLE_DEFAULT * (1 + Real.sin (pedalAngleRad bike)) / 2

/-- Foot angle with the overstretch correction of the main path. -/
def footAngle (bike : BikeData) : ℝ :=
  if stretch bike > 1.0 then baseDynamicFootAngle bike + (stretch bike - 1.0) * 30
  else baseDynamicFootAngle bike

/-- Foot angle in radians. -/
def footAngleRad (bike : BikeData) : ℝ := toRadians (footAngle bike)

/-- Top of the cleat (the pedal axle itself). -/
def cleatTop (bike : BikeData) : Point2D := ⟨(pedalRight bike).x, (pedalRight bike).y⟩

/-- Bottom of the cleat, above the pedal axle by the shoe thickness. -/
def cleatBottom (bike : BikeData) : Point2D :=
  ⟨(pedalRight bike).x, (pedalRight bike).y - bike.rider.shoeThickness * SCALE⟩

/-- Foot contact point, set back from the cleat along the foot angle. -/
def footContact (bike : BikeData) : Point2D :=
  ⟨(cleatBottom bike).x - CLEAT_SETBACK * SCALE * Real.cos (footAngleRad bike),
   (cleatBottom bike).y - CLEAT_SETBACK * SCALE * Real.sin (footAngleRad bike)⟩

/-- Knee of the legacy leg computation (foot to saddle centre). -/
def knee (bike : BikeData) : Point2D :=
  ikJoint (footContact bike) (saddleTop bike) (lowerLegLength bike) (upperLegLength bike)

/-- Torso angle in radians. -/
def torsoAngleRad (bike : BikeData) : ℝ := toRadians bike.rider.torsoAngle

/-- Offset from the saddle to the anatomical hip joint, in SVG units. -/
def hipJointOffset (bike : BikeData) : ℝ := bike.rider.riderInseam * 0.095 * SCALE

/-- Anatomical hip joint, forward of the saddle along the torso angle. -/
def hipJoint (bike : BikeData) : Point2D :=
  ⟨(saddleTop bike).x + hipJointOffset bike * Real.cos (torsoAngleRad bike),
   (saddleTop bike).y - hipJointOffset bike * Real.sin (torsoAngleRad bike)⟩

/-- Anatomical inseam: raw inseam plus the hip-joint offset in millimetres. -/
def anatomicalInseam (bike : BikeData) : ℝ :=
  bike.rider.riderInseam + hipJointOffset bike / SCALE

/-- Lower leg length of the anatomical leg, in SVG units. -/
def newLowerLegLength (bike : BikeData) : ℝ :=
  anatomicalInseam bike * lowerLegRatio * SCALE

/-- Upper leg length of the anatomical leg, in SVG units. -/
def newUpperLegLength (bike : BikeData) : ℝ :=
  anatomicalInseam bike * upperLegRatio * SCALE

/-- Distance from the hip joint to the foot contact point. -/
def distHipToFoot (bike : BikeData) : ℝ :=
  Real.sqrt (((hipJoint bike).x - (footContact bike).x) * ((hipJoint bike).x - (footContact bike).x) +
    ((hipJoint bike).y - (footContact bike).y) * ((hipJoint bike).y - (footContact bike).y))

/-- Knee of the anatomical leg computation (foot to hip joint). -/
def kneeNew (bike : BikeData) : Point2D :=
  ikJoint (footContact bike) (hipJoint bike) (newLowerLegLength bike) (newUpperLegLength bike)

/-- Knee angle of the anatomical leg, the kneeAngle field of the result. -/
def kneeAngleDegNew (bike : BikeData) : ℝ :=
  angleAtJoint (kneeNew bike) (footContact bike) (hipJoint bike)

/-- Head height in SVG units. -/
def headHeight (bike : BikeData) : ℝ := bike.rider.riderHeight * headRatio * SCALE

/-- Neck length in SVG units. -/
def neckLength (bike : BikeData) : ℝ := bike.rider.riderHeight * neckRatio * SCALE

/-- Torso length in SVG units. -/
def torsoLength (bike : BikeData) : ℝ :=
  (bike.rider.riderHeight - bike.rider.riderInseam - headHeight bike / SCALE -
    neckLength bike / SCALE) * SCALE

/-- Shoulder, from the visual hip (the saddle centre) along the torso angle. -/
def shoulder (bike : BikeData) : Point2D :=
  ⟨(saddleTop bike).x + torsoLength bike * Real.cos (torsoAngleRad bike),
   (saddleTop bike).y - torsoLength bike * Real.sin (torsoAngleRad bike)⟩

/-- Top of the neck, at a fixed sixty-degree direction from the shoulder. -/
def neckTop (bike : BikeData) : Point2D :=
  ⟨(shoulder bike).x + neckLength bike * Real.cos (toRadians 60),
   (shoulder bike).y - neckLength bike * Real.sin (toRadians 60)⟩

/-- Centre of the head. -/
def headCenter (bike : BikeData) : Point2D :=
  ⟨(neckTop bike).x + headHeight bike / 2 * Real.cos (toRadians 60),
   (neckTop bike).y - headHeight bike / 2 * Real.sin (toRadians 60)⟩

/-- The hand contact point: the end of the drop arc when riding the drops
and that point exists, otherwise the handlebar centre. -/
def handPos (bike : BikeData) : Point2D :=
  match bike.cockpit.handPosition, handlebarDropEnd bike with
  | HandPosition.drops, some p => p
  | _, _ => handlebarCenter bike

/-- Upper arm length in SVG units. -/
def upperArmScaled (bike : BikeData) : ℝ :=
  bike.rider.riderHeight * upperArmRatio * SCALE

/-- Lower arm length in SVG units. -/
def lowerArmScaled (bike : BikeData) : ℝ :=
  bike.rider.riderHeight * lowerArmRatio * SCALE

/-- Elbow via the arm IK (shoulder to hand). -/
def elbow (bike : BikeData) : Point2D :=
  ikJoint (shoulder bike) (handPos bike) (upperArmScaled bike) (lowerArmScaled bike)

/-- Knee angle with the crank fixed at 90 degrees. -/
def kneeAngleAt90 (bike : BikeData) : ℝ :=
  calculateKneeAngleAtPedalAngle 90 bike.cockpit.crankLength (saddleTop bike) ⟨0, 0⟩
    bike.rider.riderInseam bike.rider.shoeThickness (hipJointOffset bike) (torsoAngleRad bike)

/-- Knee angle with the crank fixed at 270 degrees. -/
def kneeAngleAt270 (bike : BikeData) : ℝ :=
  calculateKneeAngleAtPedalAngle 270 bike.cockpit.crankLength (saddleTop bike) ⟨0, 0⟩
    bike.rider.riderInseam bike.rider.shoeThickness (hipJointOffset bike) (torsoAngleRad bike)

/-- Vertical saddle-to-handlebar drop in millimetres. -/
def saddleHandlebarDrop (bike : BikeData) : ℝ :=
  ((handlebarCenter bike).y - (saddleTop bike).y) / SCALE

/-- Right pedal with the crank fixed at 0 degrees. -/
def pedalAt0 (bike : BikeData) : Point2D :=
  ⟨Real.cos (toRadians 0) * (bike.cockpit.crankLength * SCALE),
   Real.sin (toRadians 0) * (bike.cockpit.crankLength * SCALE)⟩

/-- Dynamic foot angle with the crank fixed at 0 degrees. -/
def baseDynamicFootAngleAt0 : ℝ :=
  FOOT_ANGLE_DEFAULT * (1 + Real.sin (toRadians 0)) / 2

/-- Foot contact point with the crank fixed at 0 degrees. -/
def footPosAt0 (bike : BikeData) : Point2D :=
  ⟨(pedalAt0 bike).x - CLEAT_SETBACK * SCALE * Real.cos (toRadians baseDynamicFootAngleAt0),
   (pedalAt0 bike).y - bike.rider.shoeThickness * SCALE -
     CLEAT_SETBACK * SCALE * Real.sin (toRadians baseDynamicFootAngleAt0)⟩

/-- Knee with the crank fixed at 0 degrees. -/
def kneePosAt0 (bike : BikeData) : Point2D :=
  ikJoint (footPosAt0 bike) (hipJoint bike) (newLowerLegLength bike) (newUpperLegLength bike)

/-- Horizontal knee-to-pedal offset at 0 degrees, in millimetres. -/
def kneeTopedalXAt0 (bike : BikeData) : ℝ :=
  -((kneePosAt0 bike).x - (pedalAt0 bike).x) / SCALE

/-- Shoulder angle: hip joint to shoulder to elbow. -/
def shoulderAngle (bike : BikeData) : ℝ :=
  angleAtJoint (shoulder bike) (hipJoint bike) (elbow bike)

/-- Elbow angle: shoulder to elbow to hand. -/
def elbowAngle (bike : BikeData) : ℝ :=
  angleAtJoint (elbow bike) (shoulder bike) (handPos bike)

/-- The unconditional entries of the point map, in insertion order of the
source, with the four IK-dependent points passed as parameters (used to
share the list shape with the Checked pipeline). -/
def basePointsWith (bike : BikeData) (footC kneeOld kneeN elbowP : Point2D) :
    List (String × Point2D) :=
  [("bb", ⟨0, 0⟩),
   ("headTubeTop", headTubeTop bike),
   ("headTubeBottom", headTubeBottom bike),
   ("seatTubeTop", seatTubeTop bike),
   ("frontWheel", frontWheel bike),
   ("rearWheel", rearWheel bike),
   ("spacerUp", spacerUp bike),
   ("stemFront", stemFront bike),
   ("handlebarCenter", handlebarCenter bike),
   ("seatPostTop", seatPostTop bike),
   ("saddleLenFwd", saddleLenFwd bike),
   ("saddleLenAft", saddleLenAft bike),
   ("saddleTop", saddleTop bike),
   ("pedalRight", pedalRight bike),
   ("pedalLeft", pedalLeft bike),
   ("pedalRightTop", pedalRightTop bike),
   ("pedalRightBottom", pedalRightBottom bike),
   ("pedalLeftTop", pedalLeftTop bike),
   ("pedalLeftBottom", pedalLeftBottom bike),
   ("cleatTop", cleatTop bike),
   ("cleatBottom", cleatBottom bike),
   ("footContact", footC),
   ("knee", kneeOld),
   ("hip", saddleTop bike),
   ("hipJoint", hipJoint bike),
   ("kneeNew", kneeN),
   ("shoulder", shoulder bike),
   ("neckTop", neckTop bike),
   ("headCenter", headCenter bike),
   ("elbow", elbowP)]

/-- The unconditional entries of the point map. -/
def basePoints (bike : BikeData) : List (String × Point2D) :=
  basePointsWith bike (footContact bike) (knee bike) (kneeNew bike) (elbow bike)

/-- The full point map: unconditional points, then the conditional
handlebar-arc points, then the conditional arc end point.  All keys are
distinct, so placing the conditional entries last does not change any
lookup. -/
def pointsMap (bike : BikeData) : List (String × Point2D) :=
  basePoints bike ++ (arcData bike).1 ++
    (match handlebarDropEnd bike with
     | some p => [("handlebarDropEnd", p)]
     | none => [])

/-- The sixteen unconditional segments (frame, cockpit, saddle, crank). -/
def staticSegments : List Segment :=
  [⟨"bb", "headTubeTop"⟩,
   ⟨"headTubeTop", "headTubeBottom"⟩,
   ⟨"headTubeBottom", "frontWheel"⟩,
   ⟨"bb", "seatTubeTop"⟩,
   ⟨"seatTubeTop", "rearWheel"⟩,
   ⟨"bb", "rearWheel"⟩,
   ⟨"seatTubeTop", "headTubeTop"⟩,
   ⟨"headTubeTop", "spacerUp"⟩,
   ⟨"spacerUp", "stemFront"⟩,
   ⟨"stemFront", "handlebarCenter"⟩,
   ⟨"seatTubeTop", "seatPostTop"⟩,
   ⟨"saddleLenFwd", "saddleLenAft"⟩,
   ⟨"bb", "pedalRight"⟩,
   ⟨"bb", "pedalLeft"⟩,
   ⟨"pedalRightTop", "pedalRightBottom"⟩,
   ⟨"pedalLeftTop", "pedalLeftBottom"⟩]

/-- The segment list: the arc segments are pushed during the arc call,
which the source performs before pushing the static segments. -/
def segments (bike : BikeData) : List Segment :=
  (arcData bike).2 ++ staticSegments

/-- The rider segments; the last one targets the arc end point exactly
when riding the drops and that point exists. -/
def riderSegments (bike : BikeData) : List Segment :=
  [⟨"cleatTop", "cleatBottom"⟩,
   ⟨"cleatBottom", "footContact"⟩,
   ⟨"footContact", "kneeNew"⟩,
   ⟨"kneeNew", "hipJoint"⟩,
   ⟨"hip", "shoulder"⟩,
   ⟨"shoulder", "neckTop"⟩,
   ⟨"shoulder", "elbow"⟩,
   ⟨"elbow",
    match bike.cockpit.handPosition, handlebarDropEnd bike with
    | HandPosition.drops, some _ => "handlebarDropEnd"
    | _, _ => "handlebarCenter"⟩]

/-- The engine: all points, segments and scalar fit metrics.  The
alignment mode parameter is received but never read, as in the source. -/
def calculateBikeGeometry (bike : BikeData) (alignmentMode : AlignmentMode) :
    BikeGeometryResult :=
  { points := pointsMap bike
    segments := segments bike
    riderSegments := riderSegments bike
    kneeAngle := kneeAngleDegNew bike
    kneeAngleAt90 := kneeAngleAt90 bike
    kneeAngleAt270 := kneeAngleAt270 bike
    saddleHandlebarDrop := saddleHandlebarDrop bike
    kneeTopedalXAt0 := kneeTopedalXAt0 bike
    shoulderAngle := shoulderAngle bike
    elbowAngle := elbowAngle bike }

/-- Lower red threshold for the knee angle at 90 degrees. -/
def KNEE_90_MIN : ℝ := 134

/-- Lower yellow threshold for the knee angle at 90 degrees. -/
def KNEE_90_MIN_WARNING : ℝ := 137

/-- Upper yellow threshold for the knee angle at 90 degrees. -/
def KNEE_90_MAX_WARNING : ℝ := 149

/-- Upper red threshold for the knee angle at 90 degrees. -/
def KNEE_90_MAX : ℝ := 153

/-- Traffic-light classification of a fit metric. -/
inductive FitClass where
  | ok : FitClass
  | warning : FitClass
  | critical : FitClass
deriving DecidableEq

/-- Classification of the knee angle at 90 degrees, as computed by the
isRed and isYellow expressions of bike-visualization.tsx. -/
def classifyKnee90 (angle : ℝ) : FitClass :=
  if angle ≤ KNEE_90_MIN ∨ angle ≥ KNEE_90_MAX then FitClass.critical
  else if angle < KNEE_90_MIN_WARNING ∨ angle > KNEE_90_MAX_WARNING then FitClass.warning
  else FitClass.ok

/-- Division that is defined only for a nonzero denominator.  In the
source language a zero denominator yields an infinite or NaN value, never
a finite number. -/
def divD (a b : ℝ) : Option ℝ := if b = 0 then none else some (a / b)

/-- Square root that is defined only for a nonnegative argument; a
negative argument yields NaN in the source language. -/
def sqrtD (x : ℝ) : Option ℝ := if 0 ≤ x then some (Real.sqrt x) else none

/-- Arc cosine that is defined only on the interval from minus one to
one; outside it the source language yields NaN. -/
def arccosD (x : ℝ) : Option ℝ :=
  if -1 ≤ x ∧ x ≤ 1 then some (Real.arccos x) else none

/-- Distance between two points with the square root checked. -/
def distanceChecked (p q : Point2D) : Option ℝ :=
  sqrtD ((q.x - p.x) * (q.x - p.x) + (q.y - p.y) * (q.y - p.y))

/-- The IK step with every partial operation checked: the distance square
root, the division by the total length in the overstretched case, the
law-of-cosines division and the clamped arc cosine in the normal case.
Divisions by the nonzero literal 2 stay unchecked. -/
def ikJointChecked (base target : Point2D) (b c : ℝ) : Option Point2D :=
  let dx := target.x - base.x
  let dy := target.y - base.y
  (sqrtD (dx * dx + dy * dy)).bind fun dist =>
    if dist > b + c then
      (divD b (b + c)).map fun ratio => ⟨base.x + dx * ratio, base.y + dy * ratio⟩
    else if dist < |b - c| then
      some ⟨(base.x + target.x) / 2, (base.y + target.y) / 2⟩
    else
      (divD (dist * dist + b * b - c * c) (2 * dist * b)).bind fun cosAlpha =>
        (arccosD (max (-1) (min 1 cosAlpha))).map fun alpha =>
          ⟨base.x + b * Real.cos (atan2 dy dx + alpha),
           base.y + b * Real.sin (atan2 dy dx + alpha)⟩

/-- The stretch factor with its division checked. -/
def stretchChecked (bike : BikeData) : Option ℝ :=
  (distanceChecked (pedalRight bike) (saddleTop bike)).bind fun d =>
    divD d (totalLegLength bike)

/-- The foot angle of the main path with the stretch division checked. -/
def footAngleChecked (bike : BikeData) : Option ℝ :=
  (stretchChecked bike).map fun s =>
    if s > 1.0 then baseDynamicFootAngle bike + (s - 1.0) * 30
    else baseDynamicFootAngle bike

/-- The foot contact point with the stretch division checked. -/
def footContactChecked (bike : BikeData) : Option Point2D :=
  (footAngleChecked bike).map fun fa =>
    ⟨(cleatBottom bike).x - CLEAT_SETBACK * SCALE * Real.cos (toRadians fa),
     (cleatBottom bike).y - CLEAT_SETBACK * SCALE * Real.sin (toRadians fa)⟩

/-- The fixed-crank-angle knee metric with its IK step checked. -/
def calculateKneeAngleAtPedalAngleChecked (pedalAngleDeg crankLength : ℝ)
    (seatPos bbPos : Point2D)
    (riderInseam cleatDrop hipJointOffsetScaled torsoAngleRad : ℝ) : Option ℝ :=
  let pedalAngleRad := toRadians pedalAngleDeg
  let crankScaled := crankLength * SCALE
  let pedalPos : Point2D :=
    ⟨bbPos.x + Real.cos pedalAngleRad * crankScaled,
     bbPos.y + Real.sin pedalAngleRad * crankScaled⟩
  let cleatSetback := CLEAT_SETBACK * SCALE
  let cleatDropScaled := cleatDrop * SCALE
  let baseDynamicFootAngle := FOOT_ANGLE_DEFAULT * (1 + Real.sin pedalAngleRad) / 2
  let footAngleRad := toRadians baseDynamicFootAngle
  let cleatBottomPos : Point2D := ⟨pedalPos.x, pedalPos.y - cleatDropScaled⟩
  let footPos : Point2D :=
    ⟨cleatBottomPos.x - cleatSetback * Real.cos footAngleRad,
     cleatBottomPos.y - cleatSetback * Real.sin footAngleRad⟩
  let hipJointPos : Point2D :=
    ⟨seatPos.x + hipJointOffsetScaled * Real.cos torsoAngleRad,
     seatPos.y - hipJointOffsetScaled * Real.sin torsoAngleRad⟩
  let anatomicalInseam := riderInseam + hipJointOffsetScaled / SCALE
  let lowerLegLength := anatomicalInseam * lowerLegRatio * SCALE
  let upperLegLength := anatomicalInseam * upperLegRatio * SCALE
  (ikJointChecked footPos hipJointPos lowerLegLength upperLegLength).map fun kneePos =>
    angleAtJoint kneePos footPos hipJointPos

/-- The full engine with every partial numeric operation checked: it
returns none exactly when some operation of the source would produce a
non-finite value from finite inputs. -/
def calculateBikeGeometryChecked (bike : BikeData) (alignmentMode : AlignmentMode) :
    Option BikeGeometryResult :=
  (footContactChecked bike).bind fun footC =>
    (ikJointChecked footC (saddleTop bike) (lowerLegLength bike) (upperLegLength bike)).bind
      fun kneeOld =>
    (ikJointChecked footC (hipJoint bike) (newLowerLegLength bike) (newUpperLegLength bike)).bind
      fun kneeN =>
    (ikJointChecked (shoulder bike) (handPos bike) (upperArmScaled bike) (lowerArmScaled bike)).bind
      fun elbowP =>
    (calculateKneeAngleAtPedalAngleChecked 90 bike.cockpit.crankLength (saddleTop bike) ⟨0, 0⟩
        bike.rider.riderInseam bike.rider.shoeThickness (hipJointOffset bike)
        (torsoAngleRad bike)).bind fun k90 =>
    (calculateKneeAngleAtPedalAngleChecked 270 bike.cockpit.crankLength (saddleTop bike) ⟨0, 0⟩
        bike.rider.riderInseam bike.rider.shoeThickness (hipJointOffset bike)
        (torsoAngleRad bike)).bind fun k270 =>
    (ikJointChecked (footPosAt0 bike) (hipJoint bike) (newLowerLegLength bike)
        (newUpperLegLength bike)).map fun kneeAt0 =>
    { points := basePointsWith bike footC kneeOld kneeN elbowP ++ (arcData bike).1 ++
        (match handlebarDropEnd bike with
         | some p => [("handlebarDropEnd", p)]
         | none => [])
      segments := segments bike
      riderSegments := riderSegments bike
      kneeAngle := angleAtJoint kneeN footC (hipJoint bike)
      kneeAngleAt90 := k90
      kneeAngleAt270 := k270
      saddleHandlebarDrop := saddleHandlebarDrop bike
      kneeTopedalXAt0 := -(kneeAt0.x - (pedalAt0 bike).x) / SCALE
      shoulderAngle := angleAtJoint (shoulder bike) (hipJoint bike) elbowP
      elbowAngle := angleAtJoint elbowP (shoulder bike) (handPos bike) }

/-- Euclidean distance of a point from the bottom bracket (the origin). -/
def distFromBB (p : Point2D) : ℝ := Real.sqrt (p.x ^ 2 + p.y ^ 2)

/-- Scales every length input of the engine by k while keeping every
angle input (head tube, seat tube, stem, pedal, torso) and the hand
position fixed. -/
def scaleLengths (k : ℝ) (bike : BikeData) : BikeData :=
  { bike with
    geometry :=
      { stack := k * bike.geometry.stack
        reach := k * bike.geometry.reach
        headTubeAngle := bike.geometry.headTubeAngle
        seatTubeAngle := bike.geometry.seatTubeAngle
        forkLength := k * bike.geometry.forkLength
        bbDrop := k * bike.geometry.bbDrop
        headTubeLength := k * bike.geometry.headTubeLength
        seatTubeLength := k * bike.geometry.seatTubeLength
        chainstayLength := k * bike.geometry.chainstayLength
        frontCenter := k * bike.geometry.frontCenter }
    cockpit :=
      { spacerHeight := k * bike.cockpit.spacerHeight
        headsetCap := k * bike.cockpit.headsetCap
        stemLength := k * bike.cockpit.stemLength
        stemAngle := bike.cockpit.stemAngle
        handlebarReach := k * bike.cockpit.handlebarReach
        handlebarDrop := k * bike.cockpit.handlebarDrop
        crankLength := k * bike.cockpit.crankLength
        pedalAngle := bike.cockpit.pedalAngle
        handPosition := bike.cockpit.handPosition
        seatPostLength := k * bike.cockpit.seatPostLength }
    rider :=
      { riderHeight := k * bike.rider.riderHeight
        riderInseam := k * bike.rider.riderInseam
        torsoAngle := bike.rider.torsoAngle
        shoeThickness := k * bike.rider.shoeThickness } }

/-- Modelled from the spec (claim C3): the three-case knee rule in the
exact words of the specification, to be compared with the ikJoint
instance used by the engine.  Here d is the distance from the hip joint
to the foot contact point, b the lower-leg length and c the upper-leg
length. -/
def kneeSpecRule (hip foot : Point2D) (b c : ℝ) : Point2D :=
  let d := Real.sqrt ((hip.x - foot.x) ^ 2 + (hip.y - foot.y) ^ 2)
  if d > b + c then
    ⟨foot.x + (hip.x - foot.x) * (b / (b + c)), foot.y + (hip.y - foot.y) * (b / (b + c))⟩
  else if d < |b - c| then
    ⟨(hip.x + foot.x) / 2, (hip.y + foot.y) / 2⟩
  else
    let baseAngle := atan2 (hip.y - foot.y) (hip.x - foot.x)
    let alpha := Real.arccos (max (-1) (min 1 ((d ^ 2 + b ^ 2 - c ^ 2) / (2 * d * b))))
    ⟨foot.x + b * Real.cos (baseAngle + alpha), foot.y + b * Real.sin (baseAngle + alpha)⟩

/-- The concrete bike of the concrete-scenario claim: only the geometry
fields are fixed by the claim, the cockpit and rider are immaterial for
the points it mentions. -/
def bikeC1 : BikeData :=
  { brand := "", model := "", size := ""
    geometry :=
      { stack := 560, reach := 390, headTubeAngle := 73, seatTubeAngle := 74,
        forkLength := 0, bbDrop := 70, headTubeLength := 150, seatTubeLength := 520,
        chainstayLength := 410, frontCenter := 600 }
    cockpit :=
      { spacerHeight := 0, headsetCap := 0, stemLength := 0, stemAngle := 0,
        handlebarReach := 0, handlebarDrop := 0, crankLength := 0, pedalAngle := 0,
        handPosition := HandPosition.hoods, seatPostLength := 0 }
    rider :=
      { riderHeight := 0, riderInseam := 0, torsoAngle := 0, shoeThickness := 0 } }

/-- C10: the alignment-mode argument is received but never read, so any
two modes give identical results on every input. -/
theorem c10_alignment_mode_unused (bike : BikeData) (m1 m2 : AlignmentMode) :
    calculateBikeGeometry bike m1 = calculateBikeGeometry bike m2 := rfl

/-- C8: changing only the pedal-angle field of the cockpit leaves the six
fixed-crank metrics of the result unchanged. -/
theorem c8_pedal_angle_independent_metrics (bike : BikeData) (θ : ℝ) (mode : AlignmentMode) :
    (calculateBikeGeometry { bike with cockpit := { bike.cockpit with pedalAngle := θ } } mode).kneeAngleAt90 =
      (calculateBikeGeometry bike mode).kneeAngleAt90 ∧
    (calculateBikeGeometry { bike with cockpit := { bike.cockpit with pedalAngle := θ } } mode).kneeAngleAt270 =
      (calculateBikeGeometry bike mode).kneeAngleAt270 ∧
    (calculateBikeGeometry { bike with cockpit := { bike.cockpit with pedalAngle := θ } } mode).saddleHandlebarDrop =
      (calculateBikeGeometry bike mode).saddleHandlebarDrop ∧
    (calculateBikeGeometry { bike with cockpit := { bike.cockpit with pedalAngle := θ } } mode).kneeTopedalXAt0 =
      (calculateBikeGeometry bike mode).kneeTopedalXAt0 ∧
    (calculateBikeGeometry { bike with cockpit := { bike.cockpit with pedalAngle := θ } } mode).shoulderAngle =
      (calculateBikeGeometry bike mode).shoulderAngle ∧
    (calculateBikeGeometry { bike with cockpit := { bike.cockpit with pedalAngle := θ } } mode).elbowAngle =
      (calculateBikeGeometry bike mode).elbowAngle :=
  ⟨rfl, rfl, rfl, rfl, rfl, rfl⟩

/-- C7: the knee-at-90-degrees classification marks 145 as ok, 135 as
warning and 130 as critical. -/
theorem c7_threshold_classification :
    classifyKnee90 145 = FitClass.ok ∧ classifyKnee90 135 = FitClass.warning ∧
      classifyKnee90 130 = FitClass.critical := by
  refine ⟨?_, ?_, ?_⟩ <;>
    norm_num [classifyKnee90, KNEE_90_MIN, KNEE_90_MIN_WARNING, KNEE_90_MAX_WARNING, KNEE_90_MAX]

/-- Both wheel points of the result, written with squared scaled lengths. -/
theorem frontWheel_eq (bike : BikeData) :
    frontWheel bike =
      ⟨Real.sqrt (max 0 ((bike.geometry.frontCenter * SCALE) ^ 2 -
          (bike.geometry.bbDrop * SCALE) ^ 2)),
        -bike.geometry.bbDrop * SCALE⟩ := by
  unfold frontWheel calculateHorizontalDistance wheelY
  refine Point2D.ext ?_ rfl
  rw [abs_of_nonneg (Real.sqrt_nonneg _)]
  ring_nf

/-- The rear wheel point of the result, written with squared scaled
lengths. -/
theorem rearWheel_eq (bike : BikeData) :
    rearWheel bike =
      ⟨-Real.sqrt (max 0 ((bike.geometry.chainstayLength * SCALE) ^ 2 -
          (bike.geometry.bbDrop * SCALE) ^ 2)),
        -bike.geometry.bbDrop * SCALE⟩ := by
  unfold rearWheel calculateHorizontalDistance wheelY
  refine Point2D.ext ?_ rfl
  rw [abs_of_nonneg (Real.sqrt_nonneg _)]
  ring_nf

/-- C6: both wheels sit at height minus bbDrop (scaled); the horizontal
offsets follow the guarded Pythagorean formula, positive for the front
wheel and negative for the rear wheel; and when the declared distance is
shorter than the vertical drop the offset collapses to zero. -/
theorem c6_wheel_positions (bike : BikeData) (mode : AlignmentMode) :
    lookupPoint (calculateBikeGeometry bike mode).points "frontWheel" =
      some ⟨Real.sqrt (max 0 ((bike.geometry.frontCenter * SCALE) ^ 2 -
          (bike.geometry.bbDrop * SCALE) ^ 2)), -bike.geometry.bbDrop * SCALE⟩ ∧
    lookupPoint (calculateBikeGeometry bike mode).points "rearWheel" =
      some ⟨-Real.sqrt (max 0 ((bike.geometry.chainstayLength * SCALE) ^ 2 -
          (bike.geometry.bbDrop * SCALE) ^ 2)), -bike.geometry.bbDrop * SCALE⟩ ∧
    (|bike.geometry.frontCenter| < |bike.geometry.bbDrop| →
      lookupPoint (calculateBikeGeometry bike mode).points "frontWheel" =
        some ⟨0, -bike.geometry.bbDrop * SCALE⟩) ∧
    (|bike.geometry.chainstayLength| < |bike.geometry.bbDrop| →
      lookupPoint (calculateBikeGeometry bike mode).points "rearWheel" =
        some ⟨0, -bike.geometry.bbDrop * SCALE⟩) := by
  have hf : lookupPoint (calculateBikeGeometry bike mode).points "frontWheel" =
      some (frontWheel bike) := rfl
  have hr : lookupPoint (calculateBikeGeometry bike mode).points "rearWheel" =
      some (rearWheel bike) := rfl
  have sq_lt : ∀ a d : ℝ, |a| < |d| → (a * SCALE) ^ 2 - (d * SCALE) ^ 2 ≤ 0 := by
    intro a d h
    have h2 : a * a < d * d := by
      have := mul_self_lt_mul_self (abs_nonneg a) h
      rwa [abs_mul_abs_self, abs_mul_abs_self] at this
    have hS : (0 : ℝ) < SCALE ^ 2 := by norm_num [SCALE]
    nlinarith
  refine ⟨?_, ?_, ?_, ?_⟩
  · rw [hf, frontWheel_eq]
  · rw [hr, rearWheel_eq]
  · intro h
    rw [hf, frontWheel_eq]
    have h0 : max 0 ((bike.geometry.frontCenter * SCALE) ^ 2 -
        (bike.geometry.bbDrop * SCALE) ^ 2) = 0 :=
      max_eq_left (sq_lt _ _ h)
    rw [h0, Real.sqrt_zero]
  · intro h
    rw [hr, rearWheel_eq]
    have h0 : max 0 ((bike.geometry.chainstayLength * SCALE) ^ 2 -
        (bike.geometry.bbDrop * SCALE) ^ 2) = 0 :=
      max_eq_left (sq_lt _ _ h)
    rw [h0, Real.sqrt_zero, neg_zero]

/-- Witness for C6 at a degenerate bike whose front-center (3) and
chainstay (4) are shorter than its bottom-bracket drop (5): both wheels
land directly below the bottom bracket. -/
theorem c6_wheel_positions_witness :
    lookupPoint (calculateBikeGeometry
        { bikeC1 with geometry :=
            { bikeC1.geometry with frontCenter := 3, chainstayLength := 4, bbDrop := 5 } }
        AlignmentMode.bb).points "frontWheel" = some ⟨0, -(5 : ℝ) * SCALE⟩ ∧
    lookupPoint (calculateBikeGeometry
        { bikeC1 with geometry :=
            { bikeC1.geometry with frontCenter := 3, chainstayLength := 4, bbDrop := 5 } }
        AlignmentMode.bb).points "rearWheel" = some ⟨0, -(5 : ℝ) * SCALE⟩ := by
  have h := c6_wheel_positions
    { bikeC1 with geometry :=
        { bikeC1.geometry with frontCenter := 3, chainstayLength := 4, bbDrop := 5 } }
    AlignmentMode.bb
  exact ⟨h.2.2.1 (by norm_num [bikeC1]), h.2.2.2 (by norm_num [bikeC1])⟩

/-- The rear wheel of the concrete-scenario bike, evaluated. -/
theorem rearWheel_bikeC1 : rearWheel bikeC1 = ⟨-Real.sqrt 104448, -56⟩ := by
  rw [rearWheel_eq]
  have h : max 0 ((bikeC1.geometry.chainstayLength * SCALE) ^ 2 -
      (bikeC1.geometry.bbDrop * SCALE) ^ 2) = 104448 := by
    norm_num [bikeC1, SCALE]
  rw [h]
  refine Point2D.ext rfl ?_
  norm_num [bikeC1, SCALE]

/-- Bounds on the square root appearing in the rear-wheel position of the
concrete scenario. -/
theorem sqrt_104448_bounds : 323.1 < Real.sqrt 104448 ∧ Real.sqrt 104448 < 323.3 :=
  ⟨(Real.lt_sqrt (by norm_num)).mpr (by norm_num),
   (Real.sqrt_lt' (by norm_num)).mpr (by norm_num)⟩

/-- C1, counterexample: for the stated concrete bike the rear-wheel x
coordinate is minus the square root of 104448, which is about minus
323.2, more than 0.1 away from the minus 326.5 asserted by the claim. -/
theorem c1_counterexample :
    lookupPoint (calculateBikeGeometry bikeC1 AlignmentMode.bb).points "rearWheel" =
      some (rearWheel bikeC1) ∧
    0.1 < |(rearWheel bikeC1).x - (-326.5)| := by
  refine ⟨rfl, ?_⟩
  rw [rearWheel_bikeC1]
  have h := sqrt_104448_bounds
  rw [abs_of_pos (by linarith [h.2])]
  linarith [h.2]

/-- C1, amended: for the concrete scenario the engine returns bb at the
origin, headTubeTop at (312, -448), the rear wheel at height -56 with x
equal to minus the square root of 410 squared times 0.64 minus 56
squared, which is within 0.1 of minus 323.2 (not minus 326.5). -/
theorem c1_amended_concrete_scenario :
    lookupPoint (calculateBikeGeometry bikeC1 AlignmentMode.bb).points "bb" =
      some ⟨0, 0⟩ ∧
    lookupPoint (calculateBikeGeometry bikeC1 AlignmentMode.bb).points "headTubeTop" =
      some ⟨312, -448⟩ ∧
    lookupPoint (calculateBikeGeometry bikeC1 AlignmentMode.bb).points "rearWheel" =
      some (rearWheel bikeC1) ∧
    (rearWheel bikeC1).y = -56 ∧
    (rearWheel bikeC1).x = -Real.sqrt (410 ^ 2 * 0.64 - 56 ^ 2) ∧
    |(rearWheel bikeC1).x - (-323.2)| < 0.1 := by
  have hht : headTubeTop bikeC1 = ⟨312, -448⟩ := by
    refine Point2D.ext ?_ ?_ <;> norm_num [headTubeTop, bikeC1, SCALE]
  have hlift : lookupPoint (calculateBikeGeometry bikeC1 AlignmentMode.bb).points "headTubeTop" =
      some (headTubeTop bikeC1) := rfl
  refine ⟨rfl, ?_, rfl, ?_, ?_, ?_⟩
  · rw [hlift, hht]
  · rw [rearWheel_bikeC1]
  · rw [rearWheel_bikeC1]
    norm_num
  · rw [rearWheel_bikeC1]
    have h := sqrt_104448_bounds
    rw [abs_lt]
    constructor <;> [skip; skip] <;> simp only [Point2D.mk.injEq] <;> linarith [h.1, h.2]

/-- The source IK step agrees with the spec wording of the three-case
rule for every base, target and pair of segment lengths. -/
theorem kneeSpecRule_eq_ikJoint (base target : Point2D) (b c : ℝ) :
    kneeSpecRule target base b c = ikJoint base target b c := by
  unfold kneeSpecRule ikJoint
  dsimp only
  have hd : (target.x - base.x) ^ 2 + (target.y - base.y) ^ 2 =
      (target.x - base.x) * (target.x - base.x) +
        (target.y - base.y) * (target.y - base.y) := by ring
  rw [hd]
  split_ifs with h1 h2
  · refine Point2D.ext ?_ ?_ <;> ring
  · refine Point2D.ext ?_ ?_ <;> ring
  · have hc : (Real.sqrt ((target.x - base.x) * (target.x - base.x) +
          (target.y - base.y) * (target.y - base.y)) ^ 2 + b ^ 2 - c ^ 2) =
        (Real.sqrt ((target.x - base.x) * (target.x - base.x) +
          (target.y - base.y) * (target.y - base.y)) *
         Real.sqrt ((target.x - base.x) * (target.x - base.x) +
          (target.y - base.y) * (target.y - base.y)) + b * b - c * c) := by ring
    rw [hc]

/-- C3: the kneeNew point returned by the engine satisfies exactly the
three-case IK rule of the specification, with d the hip-to-foot distance,
b the lower-leg and c the upper-leg length of the anatomical leg. -/
theorem c3_knee_three_case_rule (bike : BikeData) (mode : AlignmentMode) :
    lookupPoint (calculateBikeGeometry bike mode).points "kneeNew" =
      some (kneeSpecRule (hipJoint bike) (footContact bike)
        (newLowerLegLength bike) (newUpperLegLength bike)) := by
  have h : lookupPoint (calculateBikeGeometry bike mode).points "kneeNew" =
      some (kneeNew bike) := rfl
  rw [h, kneeSpecRule_eq_ikJoint]
  rfl


/-- Scaling both atan2 arguments by a positive factor does not change the
angle. -/
theorem atan2_pos_smul (r x y : ℝ) (hr : 0 < r) : atan2 (r * y) (r * x) = atan2 y x := by
  unfold atan2
  have h : (⟨r * x, r * y⟩ : ℂ) = (r : ℂ) * ⟨x, y⟩ := by
    apply Complex.ext <;>
      simp [Complex.mul_re, Complex.mul_im, Complex.ofReal_re, Complex.ofReal_im]
  rw [h, Complex.arg_real_mul _ hr]

/-- The arguments of a nonzero complex number and of its negation differ
by exactly pi in absolute value. -/
theorem abs_arg_neg_sub_arg (z : ℂ) (hz : z ≠ 0) :
    |Complex.arg (-z) - Complex.arg z| = Real.pi := by
  rcases lt_trichotomy z.im 0 with him | him | him
  · rw [Complex.arg_neg_eq_arg_add_pi_of_im_neg him]
    rw [add_sub_cancel_left, abs_of_pos Real.pi_pos]
  · have hre : z.re ≠ 0 := by
      intro h
      exact hz (Complex.ext h him)
    rcases hre.lt_or_lt with hre | hre
    · have h1 : Complex.arg z = Real.pi := Complex.arg_eq_pi_iff.mpr ⟨hre, him⟩
      have h2 : Complex.arg (-z) = 0 := by
        refine Complex.arg_eq_zero_iff.mpr ⟨?_, ?_⟩
        · simp only [Complex.neg_re]
          linarith
        · simp only [Complex.neg_im, him, neg_zero]
      rw [h1, h2, zero_sub, abs_neg, abs_of_pos Real.pi_pos]
    · have h1 : Complex.arg z = 0 := Complex.arg_eq_zero_iff.mpr ⟨le_of_lt hre, him⟩
      have h2 : Complex.arg (-z) = Real.pi := by
        refine Complex.arg_eq_pi_iff.mpr ⟨?_, ?_⟩
        · simp only [Complex.neg_re]
          linarith
        · simp only [Complex.neg_im, him, neg_zero]
      rw [h1, h2, sub_zero, abs_of_pos Real.pi_pos]
  · rw [Complex.arg_neg_eq_arg_sub_pi_of_im_pos him]
    rw [sub_sub_cancel_left, abs_neg, abs_of_pos Real.pi_pos]

/-- When the two rays out of a joint point in exactly opposite directions
(positive multiples of (x, y) and of (-x, -y)), the interior angle
computed by the engine is exactly 180 degrees. -/
theorem angleAtJoint_eq_180 (joint p q : Point2D) (x y r s : ℝ)
    (hr : 0 < r) (hs : 0 < s) (hxy : ¬(x = 0 ∧ y = 0))
    (hpx : p.x - joint.x = r * x) (hpy : p.y - joint.y = r * y)
    (hqx : q.x - joint.x = s * -x) (hqy : q.y - joint.y = s * -y) :
    angleAtJoint joint p q = 180 := by
  unfold angleAtJoint
  dsimp only
  rw [hpx, hpy, hqx, hqy, atan2_pos_smul r x y hr, atan2_pos_smul s (-x) (-y) hs]
  have hz : (⟨x, y⟩ : ℂ) ≠ 0 := by
    intro h
    exact hxy ⟨congrArg Complex.re h, congrArg Complex.im h⟩
  have hneg : atan2 (-y) (-x) = Complex.arg (-(⟨x, y⟩ : ℂ)) := by
    unfold atan2
    congr 1
  have hpos : atan2 y x = Complex.arg (⟨x, y⟩ : ℂ) := rfl
  rw [hneg, hpos]
  have habs : |(Complex.arg (-(⟨x, y⟩ : ℂ)) - Complex.arg (⟨x, y⟩ : ℂ)) * 180 / Real.pi| =
      |Complex.arg (-(⟨x, y⟩ : ℂ)) - Complex.arg (⟨x, y⟩ : ℂ)| * 180 / Real.pi := by
    rw [abs_div, abs_mul, abs_of_pos Real.pi_pos]
    norm_num
  rw [habs, abs_arg_neg_sub_arg _ hz]
  rw [mul_comm, mul_div_assoc, div_self (ne_of_gt Real.pi_pos), mul_one]
  rw [if_neg (by norm_num)]

/-- The IK step at exact full extension: when the base-to-target distance
equals b plus c (both positive), the joint lies on the segment at
fraction b over b plus c from the base. -/
theorem ikJoint_dist_eq_sum (base target : Point2D) (b c : ℝ) (hb : 0 < b) (hc : 0 < c)
    (hd : Real.sqrt ((target.x - base.x) * (target.x - base.x) +
        (target.y - base.y) * (target.y - base.y)) = b + c) :
    ikJoint base target b c =
      ⟨base.x + (target.x - base.x) * (b / (b + c)),
       base.y + (target.y - base.y) * (b / (b + c))⟩ := by
  have hbc : (0 : ℝ) < b + c := by linarith
  have hz : (⟨target.x - base.x, target.y - base.y⟩ : ℂ) ≠ 0 := by
    intro h
    have hx : target.x - base.x = 0 := congrArg Complex.re h
    have hy : target.y - base.y = 0 := congrArg Complex.im h
    rw [hx, hy] at hd
    simp only [mul_zero, add_zero, Real.sqrt_zero] at hd
    linarith
  have habs : Complex.abs ⟨target.x - base.x, target.y - base.y⟩ = b + c := by
    rw [Complex.abs_apply, Complex.normSq_mk]
    exact hd
  unfold ikJoint
  dsimp only
  rw [hd]
  rw [if_neg (lt_irrefl (b + c)), if_neg (by
    rw [not_lt]
    have : |b - c| < b + c := by
      rw [abs_sub_lt_iff]
      constructor <;> linarith
    linarith)]
  have hcos1 : ((b + c) * (b + c) + b * b - c * c) / (2 * (b + c) * b) = 1 := by
    rw [div_eq_one_iff_eq (by positivity)]
    ring
  rw [hcos1, min_self, max_eq_right (by norm_num : (-1 : ℝ) ≤ 1), Real.arccos_one, add_zero]
  have hcos : Real.cos (atan2 (target.y - base.y) (target.x - base.x)) =
      (target.x - base.x) / (b + c) := by
    unfold atan2
    rw [Complex.cos_arg hz, habs]
  have hsin : Real.sin (atan2 (target.y - base.y) (target.x - base.x)) =
      (target.y - base.y) / (b + c) := by
    unfold atan2
    rw [Complex.sin_arg, habs]
  rw [hcos, hsin]
  refine Point2D.ext ?_ ?_ <;> dsimp only <;> field_simp <;> ring

/-- Positivity of the anatomical inseam from positivity of the lower leg. -/
theorem anatomicalInseam_pos (bike : BikeData) (hb : 0 < newLowerLegLength bike) :
    0 < anatomicalInseam bike := by
  unfold newLowerLegLength lowerLegRatio SCALE at hb
  nlinarith

/-- Positivity of the upper leg from positivity of the lower leg. -/
theorem newUpperLegLength_pos (bike : BikeData) (hb : 0 < newLowerLegLength bike) :
    0 < newUpperLegLength bike := by
  have h := anatomicalInseam_pos bike hb
  unfold newUpperLegLength upperLegRatio SCALE
  nlinarith

/-- The lower leg is strictly shorter than the upper leg when positive. -/
theorem newLowerLegLength_lt_upper (bike : BikeData) (hb : 0 < newLowerLegLength bike) :
    newLowerLegLength bike < newUpperLegLength bike := by
  have h := anatomicalInseam_pos bike hb
  unfold newLowerLegLength newUpperLegLength lowerLegRatio upperLegRatio SCALE
  nlinarith

/-- C4: at the reachability boundary the engine behaves as specified.  If
the hip-to-foot distance equals the sum of the (positive) leg segment
lengths, the returned knee angle is exactly 180 degrees; if it is exactly
zero, the engine returns the knee at the midpoint of hip and foot. -/
theorem c4_ik_boundary (bike : BikeData) (mode : AlignmentMode) :
    (0 < newLowerLegLength bike →
      distHipToFoot bike = newLowerLegLength bike + newUpperLegLength bike →
      (calculateBikeGeometry bike mode).kneeAngle = 180) ∧
    (0 < newLowerLegLength bike → distHipToFoot bike = 0 →
      lookupPoint (calculateBikeGeometry bike mode).points "kneeNew" =
        some ⟨((footContact bike).x + (hipJoint bike).x) / 2,
              ((footContact bike).y + (hipJoint bike).y) / 2⟩) := by
  constructor
  · intro hb hd
    have hc : 0 < newUpperLegLength bike := newUpperLegLength_pos bike hb
    have hbc : 0 < newLowerLegLength bike + newUpperLegLength bike := by linarith
    unfold distHipToFoot at hd
    have hknee : kneeNew bike =
        ⟨(footContact bike).x + ((hipJoint bike).x - (footContact bike).x) *
            (newLowerLegLength bike / (newLowerLegLength bike + newUpperLegLength bike)),
          (footContact bike).y + ((hipJoint bike).y - (footContact bike).y) *
            (newLowerLegLength bike / (newLowerLegLength bike + newUpperLegLength bike))⟩ :=
      ikJoint_dist_eq_sum (footContact bike) (hipJoint bike) _ _ hb hc hd
    show kneeAngleDegNew bike = 180
    unfold kneeAngleDegNew
    have hxy : ¬(-((hipJoint bike).x - (footContact bike).x) = 0 ∧
        -((hipJoint bike).y - (footContact bike).y) = 0) := by
      rintro ⟨h1, h2⟩
      have h1x : (hipJoint bike).x - (footContact bike).x = 0 := by linarith
      have h2y : (hipJoint bike).y - (footContact bike).y = 0 := by linarith
      rw [h1x, h2y] at hd
      simp only [mul_zero, add_zero, Real.sqrt_zero] at hd
      linarith
    refine angleAtJoint_eq_180 (kneeNew bike) (footContact bike) (hipJoint bike)
      (-((hipJoint bike).x - (footContact bike).x))
      (-((hipJoint bike).y - (footContact bike).y))
      (newLowerLegLength bike / (newLowerLegLength bike + newUpperLegLength bike))
      (newUpperLegLength bike / (newLowerLegLength bike + newUpperLegLength bike))
      (by positivity) (by positivity) hxy ?_ ?_ ?_ ?_ <;> rw [hknee] <;> dsimp only <;>
      field_simp <;> ring
  · intro hb hd
    have hc : 0 < newUpperLegLength bike := newUpperLegLength_pos bike hb
    have hlt : newLowerLegLength bike < newUpperLegLength bike :=
      newLowerLegLength_lt_upper bike hb
    unfold distHipToFoot at hd
    have harg : ((hipJoint bike).x - (footContact bike).x) *
          ((hipJoint bike).x - (footContact bike).x) +
        ((hipJoint bike).y - (footContact bike).y) *
          ((hipJoint bike).y - (footContact bike).y) = 0 := by
      have hle := Real.sqrt_eq_zero'.mp hd
      nlinarith [mul_self_nonneg ((hipJoint bike).x - (footContact bike).x),
        mul_self_nonneg ((hipJoint bike).y - (footContact bike).y)]
    have hdx : (hipJoint bike).x - (footContact bike).x = 0 := by
      have := mul_self_nonneg ((hipJoint bike).x - (footContact bike).x)
      have := mul_self_nonneg ((hipJoint bike).y - (footContact bike).y)
      nlinarith
    have hdy : (hipJoint bike).y - (footContact bike).y = 0 := by
      have := mul_self_nonneg ((hipJoint bike).x - (footContact bike).x)
      have := mul_self_nonneg ((hipJoint bike).y - (footContact bike).y)
      nlinarith
    have h : lookupPoint (calculateBikeGeometry bike mode).points "kneeNew" =
        some (kneeNew bike) := rfl
    rw [h]
    congr 1
    unfold kneeNew ikJoint
    dsimp only
    rw [hdx, hdy]
    simp only [mul_zero, add_zero, Real.sqrt_zero]
    have hcond1 : ¬((0 : ℝ) > newLowerLegLength bike + newUpperLegLength bike) := by
      rw [not_lt]
      linarith
    have hcond2 : (0 : ℝ) < |newLowerLegLength bike - newUpperLegLength bike| := by
      rw [abs_of_neg (by linarith)]
      linarith
    rw [if_neg hcond1, if_pos hcond2]

/-- Zero degrees is zero radians. -/
theorem toRadians_zero : toRadians 0 = 0 := by
  unfold toRadians
  ring

/-- The sine of 270 degrees in radians is minus one. -/
theorem sin_toRadians_270 : Real.sin (toRadians 270) = -1 := by
  have h : toRadians 270 = Real.pi + Real.pi / 2 := by
    unfold toRadians
    ring
  rw [h, Real.sin_add, Real.sin_pi, Real.cos_pi, Real.sin_pi_div_two, Real.cos_pi_div_two]
  ring

/-- A bike whose hip-to-foot distance is exactly the total anatomical leg
length: inseam 90, crank at 270 degrees, all other lengths zero, torso
and seat tube angles chosen so that hip and foot lie on one horizontal
line. -/
def bikeW1 : BikeData :=
  { brand := "", model := "", size := ""
    geometry :=
      { stack := 0, reach := 0, headTubeAngle := 0, seatTubeAngle := 0,
        forkLength := 0, bbDrop := 0, headTubeLength := 0, seatTubeLength := 0,
        chainstayLength := 0, frontCenter := 0 }
    cockpit :=
      { spacerHeight := 0, headsetCap := 0, stemLength := 0, stemAngle := 0,
        handlebarReach := 0, handlebarDrop := 0, crankLength := 0, pedalAngle := 270,
        handPosition := HandPosition.hoods, seatPostLength := 0 }
    rider :=
      { riderHeight := 0, riderInseam := 90, torsoAngle := 0, shoeThickness := 0 } }

/-- A bike whose hip joint coincides exactly with the foot contact point:
inseam 200, seat tube length 109, crank at 270 degrees. -/
def bikeW2 : BikeData :=
  { brand := "", model := "", size := ""
    geometry :=
      { stack := 0, reach := 0, headTubeAngle := 0, seatTubeAngle := 0,
        forkLength := 0, bbDrop := 0, headTubeLength := 0, seatTubeLength := 109,
        chainstayLength := 0, frontCenter := 0 }
    cockpit :=
      { spacerHeight := 0, headsetCap := 0, stemLength := 0, stemAngle := 0,
        handlebarReach := 0, handlebarDrop := 0, crankLength := 0, pedalAngle := 270,
        handPosition := HandPosition.hoods, seatPostLength := 0 }
    rider :=
      { riderHeight := 0, riderInseam := 200, torsoAngle := 0, shoeThickness := 0 } }

/-- The saddle centre of the first witness bike. -/
theorem saddleTop_bikeW1 : saddleTop bikeW1 = ⟨-32, 0⟩ := by
  unfold saddleTop seatPostTop seatTubeTop
  refine Point2D.ext ?_ ?_ <;> norm_num [bikeW1, SADDLE_SETBACK, SCALE]

/-- The right pedal of the first witness bike. -/
theorem pedalRight_bikeW1 : pedalRight bikeW1 = ⟨0, 0⟩ := by
  unfold pedalRight
  refine Point2D.ext ?_ ?_ <;> norm_num [bikeW1, SCALE]

/-- The foot angle of the first witness bike is zero. -/
theorem footAngle_bikeW1 : footAngle bikeW1 = 0 := by
  have h1024 : Real.sqrt 1024 = 32 := by
    rw [show (1024 : ℝ) = 32 ^ 2 by norm_num]
    exact Real.sqrt_sq (by norm_num)
  have hstretch : stretch bikeW1 = 32 / 72 := by
    unfold stretch distPedalToSeat totalLegLength lowerLegLength upperLegLength
    rw [saddleTop_bikeW1, pedalRight_bikeW1]
    norm_num [bikeW1, SCALE, lowerLegRatio, upperLegRatio, h1024]
  have hbase : baseDynamicFootAngle bikeW1 = 0 := by
    unfold baseDynamicFootAngle pedalAngleRad
    rw [show bikeW1.cockpit.pedalAngle = 270 from rfl, sin_toRadians_270]
    norm_num [FOOT_ANGLE_DEFAULT]
  unfold footAngle
  rw [hstretch, hbase, if_neg (by norm_num)]

/-- The foot contact point of the first witness bike. -/
theorem footContact_bikeW1 : footContact bikeW1 = ⟨-104, 0⟩ := by
  unfold footContact cleatBottom footAngleRad
  rw [footAngle_bikeW1, toRadians_zero, pedalRight_bikeW1]
  refine Point2D.ext ?_ ?_ <;>
    norm_num [Real.cos_zero, Real.sin_zero, CLEAT_SETBACK, SCALE, bikeW1]

/-- The hip joint of the first witness bike. -/
theorem hipJoint_bikeW1 : hipJoint bikeW1 = ⟨-25.16, 0⟩ := by
  unfold hipJoint hipJointOffset torsoAngleRad
  rw [saddleTop_bikeW1, show bikeW1.rider.torsoAngle = 0 from rfl, toRadians_zero]
  refine Point2D.ext ?_ ?_ <;>
    norm_num [Real.cos_zero, Real.sin_zero, SCALE, bikeW1]

/-- The hip-to-foot distance of the first witness bike is exactly the
total anatomical leg length. -/
theorem distHipToFoot_bikeW1 : distHipToFoot bikeW1 = 78.84 := by
  unfold distHipToFoot
  rw [footContact_bikeW1, hipJoint_bikeW1]
  have h : (-25.16 - -104 : ℝ) * (-25.16 - -104) + (0 - 0) * (0 - 0) = 78.84 ^ 2 := by
    norm_num
  dsimp only
  rw [h]
  exact Real.sqrt_sq (by norm_num)

/-- The saddle centre of the second witness bike. -/
theorem saddleTop_bikeW2 : saddleTop bikeW2 = ⟨-119.2, 0⟩ := by
  unfold saddleTop seatPostTop seatTubeTop seatTubeAngleRad
  rw [show bikeW2.geometry.seatTubeAngle = 0 from rfl, toRadians_zero]
  refine Point2D.ext ?_ ?_ <;>
    norm_num [Real.cos_zero, Real.sin_zero, bikeW2, SADDLE_SETBACK, SCALE]

/-- The right pedal of the second witness bike. -/
theorem pedalRight_bikeW2 : pedalRight bikeW2 = ⟨0, 0⟩ := by
  unfold pedalRight
  refine Point2D.ext ?_ ?_ <;> norm_num [bikeW2, SCALE]

/-- The foot angle of the second witness bike is zero. -/
theorem footAngle_bikeW2 : footAngle bikeW2 = 0 := by
  have hsq : Real.sqrt ((-119.2 - 0 : ℝ) * (-119.2 - 0) + (0 - 0) * (0 - 0)) = 119.2 := by
    rw [show ((-119.2 - 0 : ℝ) * (-119.2 - 0) + (0 - 0) * (0 - 0)) = 119.2 ^ 2 by norm_num]
    exact Real.sqrt_sq (by norm_num)
  have hstretch : stretch bikeW2 = 119.2 / 160 := by
    unfold stretch distPedalToSeat totalLegLength lowerLegLength upperLegLength
    rw [saddleTop_bikeW2, pedalRight_bikeW2]
    dsimp only
    rw [hsq]
    norm_num [bikeW2, SCALE, lowerLegRatio, upperLegRatio]
  have hbase : baseDynamicFootAngle bikeW2 = 0 := by
    unfold baseDynamicFootAngle pedalAngleRad
    rw [show bikeW2.cockpit.pedalAngle = 270 from rfl, sin_toRadians_270]
    norm_num [FOOT_ANGLE_DEFAULT]
  unfold footAngle
  rw [hstretch, hbase, if_neg (by norm_num)]

/-- The foot contact point of the second witness bike. -/
theorem footContact_bikeW2 : footContact bikeW2 = ⟨-104, 0⟩ := by
  unfold footContact cleatBottom footAngleRad
  rw [footAngle_bikeW2, toRadians_zero, pedalRight_bikeW2]
  refine Point2D.ext ?_ ?_ <;>
    norm_num [Real.cos_zero, Real.sin_zero, CLEAT_SETBACK, SCALE, bikeW2]

/-- The hip joint of the second witness bike coincides with the foot. -/
theorem hipJoint_bikeW2 : hipJoint bikeW2 = ⟨-104, 0⟩ := by
  unfold hipJoint hipJointOffset torsoAngleRad
  rw [saddleTop_bikeW2, show bikeW2.rider.torsoAngle = 0 from rfl, toRadians_zero]
  refine Point2D.ext ?_ ?_ <;>
    norm_num [Real.cos_zero, Real.sin_zero, SCALE, bikeW2]

/-- The hip-to-foot distance of the second witness bike is zero. -/
theorem distHipToFoot_bikeW2 : distHipToFoot bikeW2 = 0 := by
  unfold distHipToFoot
  rw [footContact_bikeW2, hipJoint_bikeW2]
  norm_num

/-- Witness for C4: on the first witness bike the hip-to-foot distance
equals the total leg length and the returned knee angle is exactly 180;
on the second the distance is zero and the knee lands at the hip-foot
midpoint. -/
theorem c4_ik_boundary_witness :
    (calculateBikeGeometry bikeW1 AlignmentMode.bb).kneeAngle = 180 ∧
    lookupPoint (calculateBikeGeometry bikeW2 AlignmentMode.bb).points "kneeNew" =
      some ⟨-104, 0⟩ := by
  constructor
  · refine (c4_ik_boundary bikeW1 AlignmentMode.bb).1 ?_ ?_
    · norm_num [newLowerLegLength, anatomicalInseam, hipJointOffset, lowerLegRatio,
        SCALE, bikeW1]
    · rw [distHipToFoot_bikeW1]
      norm_num [newLowerLegLength, newUpperLegLength, anatomicalInseam, hipJointOffset,
        lowerLegRatio, upperLegRatio, SCALE, bikeW1]
  · have h := (c4_ik_boundary bikeW2 AlignmentMode.bb).2 ?_ ?_
    · rw [h, footContact_bikeW2, hipJoint_bikeW2]
      norm_num
    · norm_num [newLowerLegLength, anatomicalInseam, hipJointOffset, lowerLegRatio,
        SCALE, bikeW2]
    · exact distHipToFoot_bikeW2

/-- The IK step in the overstretched case. -/
theorem ikJoint_dist_gt (base target : Point2D) (b c : ℝ)
    (h : Real.sqrt ((target.x - base.x) * (target.x - base.x) +
        (target.y - base.y) * (target.y - base.y)) > b + c) :
    ikJoint base target b c =
      ⟨base.x + (target.x - base.x) * (b / (b + c)),
       base.y + (target.y - base.y) * (b / (b + c))⟩ := by
  unfold ikJoint
  dsimp only
  rw [if_pos h]

/-- The IK step in the too-close case. -/
theorem ikJoint_dist_lt (base target : Point2D) (b c : ℝ)
    (h1 : ¬(Real.sqrt ((target.x - base.x) * (target.x - base.x) +
        (target.y - base.y) * (target.y - base.y)) > b + c))
    (h2 : Real.sqrt ((target.x - base.x) * (target.x - base.x) +
        (target.y - base.y) * (target.y - base.y)) < |b - c|) :
    ikJoint base target b c =
      ⟨(base.x + target.x) / 2, (base.y + target.y) / 2⟩ := by
  unfold ikJoint
  dsimp only
  rw [if_neg h1, if_pos h2]

/-- The engine angle at a joint whose two reference points coincide with
it is zero (both atan2 calls return zero on the zero vector). -/
theorem angleAtJoint_degenerate (j p q : Point2D) (hp : p = j) (hq : q = j) :
    angleAtJoint j p q = 0 := by
  subst hp
  subst hq
  unfold angleAtJoint
  dsimp only
  simp only [sub_self]
  rw [zero_mul, zero_div, abs_zero, if_neg (by norm_num)]

/-- Ninety degrees is pi over two radians. -/
theorem toRadians_90 : toRadians 90 = Real.pi / 2 := by
  unfold toRadians
  ring

/-- A bike chosen so that doubling all length inputs makes the hand land
exactly on the shoulder: the original arm IK is overstretched (elbow
angle 180) while the doubled one collapses (elbow angle 0). -/
def bikeC5 : BikeData :=
  { brand := "", model := "", size := ""
    geometry :=
      { stack := 10, reach := 1.25, headTubeAngle := 90, seatTubeAngle := 90,
        forkLength := 0, bbDrop := 0, headTubeLength := 0, seatTubeLength := 17.95,
        chainstayLength := 0, frontCenter := 0 }
    cockpit :=
      { spacerHeight := 0, headsetCap := 0, stemLength := 0, stemAngle := 0,
        handlebarReach := 0, handlebarDrop := 0, crankLength := 0, pedalAngle := 0,
        handPosition := HandPosition.hoods, seatPostLength := 0 }
    rider :=
      { riderHeight := 50, riderInseam := 20, torsoAngle := 0, shoeThickness := 0 } }

/-- The handlebar centre of the scale-invariance bike. -/
theorem handlebarCenter_bikeC5 : handlebarCenter bikeC5 = ⟨1, -20.72⟩ := by
  unfold handlebarCenter stemFront spacerUp headTubeTop spacerStackHeight headTubeAngleRad
  rw [show bikeC5.geometry.headTubeAngle = 90 from rfl, toRadians_90]
  refine Point2D.ext ?_ ?_ <;>
    norm_num [Real.cos_pi_div_two, Real.sin_pi_div_two, HEADSET_BEARING_DIAMETER,
      SCALE, bikeC5]

/-- The scale-invariance bike has no handlebar arc (zero drop). -/
theorem handlebarDropEnd_bikeC5 : handlebarDropEnd bikeC5 = none := by
  unfold handlebarDropEnd arcData createHandlebarArc
  rw [if_pos (by norm_num [bikeC5, SCALE])]
  rfl

/-- The hand of the scale-invariance bike rests on the handlebar centre. -/
theorem handPos_bikeC5 : handPos bikeC5 = handlebarCenter bikeC5 := by
  unfold handPos
  rw [handlebarDropEnd_bikeC5]
  rfl

/-- The saddle centre of the scale-invariance bike. -/
theorem saddleTop_bikeC5 : saddleTop bikeC5 = ⟨-32, -14.36⟩ := by
  unfold saddleTop seatPostTop seatTubeTop seatTubeAngleRad
  rw [show bikeC5.geometry.seatTubeAngle = 90 from rfl, toRadians_90]
  refine Point2D.ext ?_ ?_ <;>
    norm_num [Real.cos_pi_div_two, Real.sin_pi_div_two, bikeC5, SADDLE_SETBACK, SCALE]

/-- The shoulder of the scale-invariance bike. -/
theorem shoulder_bikeC5 : shoulder bikeC5 = ⟨-15, -14.36⟩ := by
  unfold shoulder torsoLength headHeight neckLength torsoAngleRad
  rw [saddleTop_bikeC5, show bikeC5.rider.torsoAngle = 0 from rfl, toRadians_zero]
  refine Point2D.ext ?_ ?_ <;>
    norm_num [Real.cos_zero, Real.sin_zero, headRatio, neckRatio, SCALE, bikeC5]

/-- The elbow of the scale-invariance bike: the arm is overstretched, so
the elbow lies on the shoulder-hand segment. -/
theorem elbow_bikeC5 :
    elbow bikeC5 = ⟨-15 + 16 * (7.44 / 13.28), -14.36 + -6.36 * (7.44 / 13.28)⟩ := by
  have hb : upperArmScaled bikeC5 = 7.44 := by
    norm_num [upperArmScaled, upperArmRatio, SCALE, bikeC5]
  have hc : lowerArmScaled bikeC5 = 5.84 := by
    norm_num [lowerArmScaled, lowerArmRatio, SCALE, bikeC5]
  unfold elbow
  rw [handPos_bikeC5, handlebarCenter_bikeC5, shoulder_bikeC5, hb, hc]
  have hgt : Real.sqrt (((⟨1, -20.72⟩ : Point2D).x - (⟨-15, -14.36⟩ : Point2D).x) *
        ((⟨1, -20.72⟩ : Point2D).x - (⟨-15, -14.36⟩ : Point2D).x) +
      ((⟨1, -20.72⟩ : Point2D).y - (⟨-15, -14.36⟩ : Point2D).y) *
        ((⟨1, -20.72⟩ : Point2D).y - (⟨-15, -14.36⟩ : Point2D).y)) > 7.44 + 5.84 := by
    dsimp only
    rw [show ((1 : ℝ) - -15) * (1 - -15) + (-20.72 - -14.36) * (-20.72 - -14.36) =
        296.4496 by norm_num]
    have h : (13.28 : ℝ) < Real.sqrt 296.4496 :=
      (Real.lt_sqrt (by norm_num)).mpr (by norm_num)
    linarith
  rw [ikJoint_dist_gt _ _ _ _ hgt]
  refine Point2D.ext ?_ ?_ <;> dsimp only <;> norm_num

/-- The elbow angle of the scale-invariance bike is 180 degrees. -/
theorem elbowAngle_bikeC5 : elbowAngle bikeC5 = 180 := by
  unfold elbowAngle
  rw [handPos_bikeC5, handlebarCenter_bikeC5, shoulder_bikeC5, elbow_bikeC5]
  refine angleAtJoint_eq_180 _ _ _ (-16) 6.36 (7.44 / 13.28) (5.84 / 13.28)
    (by norm_num) (by norm_num) (by norm_num) ?_ ?_ ?_ ?_ <;> dsimp only <;> norm_num

/-- The handlebar centre of the doubled scale-invariance bike. -/
theorem handlebarCenter_bikeC5d :
    handlebarCenter (scaleLengths 2 bikeC5) = ⟨2, -28.72⟩ := by
  unfold handlebarCenter stemFront spacerUp headTubeTop spacerStackHeight headTubeAngleRad
  rw [show (scaleLengths 2 bikeC5).geometry.headTubeAngle = 90 from rfl, toRadians_90]
  refine Point2D.ext ?_ ?_ <;>
    norm_num [Real.cos_pi_div_two, Real.sin_pi_div_two, HEADSET_BEARING_DIAMETER,
      SCALE, scaleLengths, bikeC5]

/-- The doubled scale-invariance bike has no handlebar arc either. -/
theorem handlebarDropEnd_bikeC5d : handlebarDropEnd (scaleLengths 2 bikeC5) = none := by
  unfold handlebarDropEnd arcData createHandlebarArc
  rw [if_pos (by norm_num [scaleLengths, bikeC5, SCALE])]
  rfl

/-- The hand of the doubled scale-invariance bike. -/
theorem handPos_bikeC5d :
    handPos (scaleLengths 2 bikeC5) = handlebarCenter (scaleLengths 2 bikeC5) := by
  unfold handPos
  rw [handlebarDropEnd_bikeC5d]
  rfl

/-- The saddle centre of the doubled scale-invariance bike. -/
theorem saddleTop_bikeC5d : saddleTop (scaleLengths 2 bikeC5) = ⟨-32, -28.72⟩ := by
  unfold saddleTop seatPostTop seatTubeTop seatTubeAngleRad
  rw [show (scaleLengths 2 bikeC5).geometry.seatTubeAngle = 90 from rfl, toRadians_90]
  refine Point2D.ext ?_ ?_ <;>
    norm_num [Real.cos_pi_div_two, Real.sin_pi_div_two, scaleLengths, bikeC5,
      SADDLE_SETBACK, SCALE]

/-- The shoulder of the doubled scale-invariance bike coincides with its
handlebar centre. -/
theorem shoulder_bikeC5d : shoulder (scaleLengths 2 bikeC5) = ⟨2, -28.72⟩ := by
  unfold shoulder torsoLength headHeight neckLength torsoAngleRad
  rw [saddleTop_bikeC5d, show (scaleLengths 2 bikeC5).rider.torsoAngle = 0 from rfl,
    toRadians_zero]
  refine Point2D.ext ?_ ?_ <;>
    norm_num [Real.cos_zero, Real.sin_zero, headRatio, neckRatio, SCALE, scaleLengths, bikeC5]

/-- The elbow of the doubled scale-invariance bike: hand and shoulder
coincide, so the IK collapses to the midpoint, which is that same point. -/
theorem elbow_bikeC5d : elbow (scaleLengths 2 bikeC5) = ⟨2, -28.72⟩ := by
  have hb : upperArmScaled (scaleLengths 2 bikeC5) = 14.88 := by
    norm_num [upperArmScaled, upperArmRatio, SCALE, scaleLengths, bikeC5]
  have hc : lowerArmScaled (scaleLengths 2 bikeC5) = 11.68 := by
    norm_num [lowerArmScaled, lowerArmRatio, SCALE, scaleLengths, bikeC5]
  unfold elbow
  rw [handPos_bikeC5d, handlebarCenter_bikeC5d, shoulder_bikeC5d, hb, hc]
  have hsq : Real.sqrt (((⟨2, -28.72⟩ : Point2D).x - (⟨2, -28.72⟩ : Point2D).x) *
        ((⟨2, -28.72⟩ : Point2D).x - (⟨2, -28.72⟩ : Point2D).x) +
      ((⟨2, -28.72⟩ : Point2D).y - (⟨2, -28.72⟩ : Point2D).y) *
        ((⟨2, -28.72⟩ : Point2D).y - (⟨2, -28.72⟩ : Point2D).y)) = 0 := by
    dsimp only
    norm_num
  rw [ikJoint_dist_lt _ _ _ _ (by rw [hsq]; norm_num) (by rw [hsq]; norm_num)]
  refine Point2D.ext ?_ ?_ <;> dsimp only <;> norm_num

/-- The elbow angle of the doubled scale-invariance bike is 0 degrees. -/
theorem elbowAngle_bikeC5d : elbowAngle (scaleLengths 2 bikeC5) = 0 := by
  unfold elbowAngle
  rw [elbow_bikeC5d, shoulder_bikeC5d, handPos_bikeC5d, handlebarCenter_bikeC5d]
  exact angleAtJoint_degenerate _ _ _ rfl rfl

/-- C5, counterexample: on the scale-invariance bike, doubling every
length input changes the elbow angle from 180 to 0 degrees, and the
distance of the saddle centre from the bottom bracket does not double
(the built-in saddle setback of 40 millimetres is not an input and does
not scale). -/
theorem c5_counterexample :
    (calculateBikeGeometry (scaleLengths 2 bikeC5) AlignmentMode.bb).elbowAngle ≠
      (calculateBikeGeometry bikeC5 AlignmentMode.bb).elbowAngle ∧
    lookupPoint (calculateBikeGeometry bikeC5 AlignmentMode.bb).points "saddleTop" =
      some (saddleTop bikeC5) ∧
    lookupPoint (calculateBikeGeometry (scaleLengths 2 bikeC5) AlignmentMode.bb).points
        "saddleTop" = some (saddleTop (scaleLengths 2 bikeC5)) ∧
    distFromBB (saddleTop (scaleLengths 2 bikeC5)) ≠ 2 * distFromBB (saddleTop bikeC5) := by
  refine ⟨?_, rfl, rfl, ?_⟩
  · show elbowAngle (scaleLengths 2 bikeC5) ≠ elbowAngle bikeC5
    rw [elbowAngle_bikeC5d, elbowAngle_bikeC5]
    norm_num
  · rw [saddleTop_bikeC5d, saddleTop_bikeC5]
    unfold distFromBB
    dsimp only
    rw [show ((-32 : ℝ)) ^ 2 + (-28.72) ^ 2 = 1848.8384 by norm_num,
      show ((-32 : ℝ)) ^ 2 + (-14.36) ^ 2 = 1230.2096 by norm_num]
    have h2 : (2 : ℝ) * Real.sqrt 1230.2096 = Real.sqrt 4920.8384 := by
      rw [show (4920.8384 : ℝ) = 4 * 1230.2096 by norm_num,
        Real.sqrt_mul (by norm_num : (0 : ℝ) ≤ 4),
        show Real.sqrt (4 : ℝ) = 2 by
          rw [show (4 : ℝ) = 2 ^ 2 by norm_num]
          exact Real.sqrt_sq (by norm_num)]
    rw [h2]
    exact ne_of_lt (Real.sqrt_lt_sqrt (by norm_num) (by norm_num))

/-- Doubling distributes over the max-zero guard. -/
theorem max_zero_four_mul (t : ℝ) : max 0 (4 * t) = 4 * max 0 t := by
  rcases le_total t 0 with h | h
  · rw [max_eq_left (by linarith), max_eq_left h, mul_zero]
  · rw [max_eq_right (by linarith), max_eq_right h]

/-- The square root of four times a number is twice its square root. -/
theorem sqrt_four_mul (t : ℝ) : Real.sqrt (4 * t) = 2 * Real.sqrt t := by
  rw [Real.sqrt_mul (by norm_num : (0 : ℝ) ≤ 4),
    show Real.sqrt (4 : ℝ) = 2 by
      rw [show (4 : ℝ) = 2 ^ 2 by norm_num]
      exact Real.sqrt_sq (by norm_num)]

/-- A doubled point is twice as far from the bottom bracket. -/
theorem distFromBB_double (p q : Point2D) (h : q = ⟨2 * p.x, 2 * p.y⟩) :
    distFromBB q = 2 * distFromBB p := by
  subst h
  unfold distFromBB
  dsimp only
  rw [show (2 * p.x) ^ 2 + (2 * p.y) ^ 2 = 4 * (p.x ^ 2 + p.y ^ 2) by ring, sqrt_four_mul]

/-- Doubling every length input doubles the head-tube top. -/
theorem headTubeTop_scale (bike : BikeData) :
    headTubeTop (scaleLengths 2 bike) =
      ⟨2 * (headTubeTop bike).x, 2 * (headTubeTop bike).y⟩ := by
  unfold headTubeTop
  refine Point2D.ext ?_ ?_ <;> simp only [scaleLengths] <;> ring

/-- Doubling every length input doubles the head-tube bottom. -/
theorem headTubeBottom_scale (bike : BikeData) :
    headTubeBottom (scaleLengths 2 bike) =
      ⟨2 * (headTubeBottom bike).x, 2 * (headTubeBottom bike).y⟩ := by
  unfold headTubeBottom headTubeTop headTubeAngleRad
  refine Point2D.ext ?_ ?_ <;> simp only [scaleLengths] <;> ring

/-- Doubling every length input doubles the seat-tube top. -/
theorem seatTubeTop_scale (bike : BikeData) :
    seatTubeTop (scaleLengths 2 bike) =
      ⟨2 * (seatTubeTop bike).x, 2 * (seatTubeTop bike).y⟩ := by
  unfold seatTubeTop seatTubeAngleRad
  refine Point2D.ext ?_ ?_ <;> simp only [scaleLengths] <;> ring

/-- Doubling every length input doubles the seatpost top. -/
theorem seatPostTop_scale (bike : BikeData) :
    seatPostTop (scaleLengths 2 bike) =
      ⟨2 * (seatPostTop bike).x, 2 * (seatPostTop bike).y⟩ := by
  unfold seatPostTop seatTubeTop seatTubeAngleRad
  refine Point2D.ext ?_ ?_ <;> simp only [scaleLengths] <;> ring

/-- Doubling every length input doubles the right pedal. -/
theorem pedalRight_scale (bike : BikeData) :
    pedalRight (scaleLengths 2 bike) =
      ⟨2 * (pedalRight bike).x, 2 * (pedalRight bike).y⟩ := by
  unfold pedalRight pedalAngleRad
  refine Point2D.ext ?_ ?_ <;> simp only [scaleLengths] <;> ring

/-- Doubling every length input doubles the left pedal. -/
theorem pedalLeft_scale (bike : BikeData) :
    pedalLeft (scaleLengths 2 bike) =
      ⟨2 * (pedalLeft bike).x, 2 * (pedalLeft bike).y⟩ := by
  unfold pedalLeft pedalAngleRad
  refine Point2D.ext ?_ ?_ <;> simp only [scaleLengths] <;> ring

/-- Doubling every length input doubles the front wheel centre. -/
theorem frontWheel_scale (bike : BikeData) :
    frontWheel (scaleLengths 2 bike) =
      ⟨2 * (frontWheel bike).x, 2 * (frontWheel bike).y⟩ := by
  rw [frontWheel_eq, frontWheel_eq]
  refine Point2D.ext ?_ ?_ <;> simp only [scaleLengths]
  · rw [show (2 * bike.geometry.frontCenter * SCALE) ^ 2 -
        (2 * bike.geometry.bbDrop * SCALE) ^ 2 =
        4 * ((bike.geometry.frontCenter * SCALE) ^ 2 -
          (bike.geometry.bbDrop * SCALE) ^ 2) by ring,
      max_zero_four_mul, sqrt_four_mul]
  · ring

/-- Doubling every length input doubles the rear wheel centre. -/
theorem rearWheel_scale (bike : BikeData) :
    rearWheel (scaleLengths 2 bike) =
      ⟨2 * (rearWheel bike).x, 2 * (rearWheel bike).y⟩ := by
  rw [rearWheel_eq, rearWheel_eq]
  refine Point2D.ext ?_ ?_ <;> simp only [scaleLengths]
  · rw [show (2 * bike.geometry.chainstayLength * SCALE) ^ 2 -
        (2 * bike.geometry.bbDrop * SCALE) ^ 2 =
        4 * ((bike.geometry.chainstayLength * SCALE) ^ 2 -
          (bike.geometry.bbDrop * SCALE) ^ 2) by ring,
      max_zero_four_mul, sqrt_four_mul]
    ring
  · ring

/-- C5, amended: doubling every length input while holding the angles
fixed doubles the distance from the bottom bracket of the points that the
engine derives from inputs alone (head tube top and bottom, seat tube
top, both wheels, seatpost top, both pedals).  Points built from the
fixed millimetre constants of the module (saddle setback, headset bearing
radius, cleat setback) and the knee, elbow and shoulder angles are not
preserved in general, as the counterexample shows. -/
theorem c5_amended_scaling (bike : BikeData) (mode : AlignmentMode) :
    lookupPoint (calculateBikeGeometry (scaleLengths 2 bike) mode).points "headTubeTop" =
      some ⟨2 * (headTubeTop bike).x, 2 * (headTubeTop bike).y⟩ ∧
    lookupPoint (calculateBikeGeometry (scaleLengths 2 bike) mode).points "headTubeBottom" =
      some ⟨2 * (headTubeBottom bike).x, 2 * (headTubeBottom bike).y⟩ ∧
    lookupPoint (calculateBikeGeometry (scaleLengths 2 bike) mode).points "seatTubeTop" =
      some ⟨2 * (seatTubeTop bike).x, 2 * (seatTubeTop bike).y⟩ ∧
    lookupPoint (calculateBikeGeometry (scaleLengths 2 bike) mode).points "frontWheel" =
      some ⟨2 * (frontWheel bike).x, 2 * (frontWheel bike).y⟩ ∧
    lookupPoint (calculateBikeGeometry (scaleLengths 2 bike) mode).points "rearWheel" =
      some ⟨2 * (rearWheel bike).x, 2 * (rearWheel bike).y⟩ ∧
    lookupPoint (calculateBikeGeometry (scaleLengths 2 bike) mode).points "seatPostTop" =
      some ⟨2 * (seatPostTop bike).x, 2 * (seatPostTop bike).y⟩ ∧
    lookupPoint (calculateBikeGeometry (scaleLengths 2 bike) mode).points "pedalRight" =
      some ⟨2 * (pedalRight bike).x, 2 * (pedalRight bike).y⟩ ∧
    lookupPoint (calculateBikeGeometry (scaleLengths 2 bike) mode).points "pedalLeft" =
      some ⟨2 * (pedalLeft bike).x, 2 * (pedalLeft bike).y⟩ ∧
    distFromBB (headTubeTop (scaleLengths 2 bike)) = 2 * distFromBB (headTubeTop bike) ∧
    distFromBB (headTubeBottom (scaleLengths 2 bike)) = 2 * distFromBB (headTubeBottom bike) ∧
    distFromBB (seatTubeTop (scaleLengths 2 bike)) = 2 * distFromBB (seatTubeTop bike) ∧
    distFromBB (frontWheel (scaleLengths 2 bike)) = 2 * distFromBB (frontWheel bike) ∧
    distFromBB (rearWheel (scaleLengths 2 bike)) = 2 * distFromBB (rearWheel bike) ∧
    distFromBB (seatPostTop (scaleLengths 2 bike)) = 2 * distFromBB (seatPostTop bike) ∧
    distFromBB (pedalRight (scaleLengths 2 bike)) = 2 * distFromBB (pedalRight bike) ∧
    distFromBB (pedalLeft (scaleLengths 2 bike)) = 2 * distFromBB (pedalLeft bike) := by
  refine ⟨?_, ?_, ?_, ?_, ?_, ?_, ?_, ?_,
    distFromBB_double _ _ (headTubeTop_scale bike),
    distFromBB_double _ _ (headTubeBottom_scale bike),
    distFromBB_double _ _ (seatTubeTop_scale bike),
    distFromBB_double _ _ (frontWheel_scale bike),
    distFromBB_double _ _ (rearWheel_scale bike),
    distFromBB_double _ _ (seatPostTop_scale bike),
    distFromBB_double _ _ (pedalRight_scale bike),
    distFromBB_double _ _ (pedalLeft_scale bike)⟩
  · rw [show lookupPoint (calculateBikeGeometry (scaleLengths 2 bike) mode).points
        "headTubeTop" = some (headTubeTop (scaleLengths 2 bike)) from rfl,
      headTubeTop_scale]
  · rw [show lookupPoint (calculateBikeGeometry (scaleLengths 2 bike) mode).points
        "headTubeBottom" = some (headTubeBottom (scaleLengths 2 bike)) from rfl,
      headTubeBottom_scale]
  · rw [show lookupPoint (calculateBikeGeometry (scaleLengths 2 bike) mode).points
        "seatTubeTop" = some (seatTubeTop (scaleLengths 2 bike)) from rfl,
      seatTubeTop_scale]
  · rw [show lookupPoint (calculateBikeGeometry (scaleLengths 2 bike) mode).points
        "frontWheel" = some (frontWheel (scaleLengths 2 bike)) from rfl,
      frontWheel_scale]
  · rw [show lookupPoint (calculateBikeGeometry (scaleLengths 2 bike) mode).points
        "rearWheel" = some (rearWheel (scaleLengths 2 bike)) from rfl,
      rearWheel_scale]
  · rw [show lookupPoint (calculateBikeGeometry (scaleLengths 2 bike) mode).points
        "seatPostTop" = some (seatPostTop (scaleLengths 2 bike)) from rfl,
      seatPostTop_scale]
  · rw [show lookupPoint (calculateBikeGeometry (scaleLengths 2 bike) mode).points
        "pedalRight" = some (pedalRight (scaleLengths 2 bike)) from rfl,
      pedalRight_scale]
  · rw [show lookupPoint (calculateBikeGeometry (scaleLengths 2 bike) mode).points
        "pedalLeft" = some (pedalLeft (scaleLengths 2 bike)) from rfl,
      pedalLeft_scale]


/-- C9: every from and to identifier of the returned segments and rider
segments has an entry in the returned point map; arc-connecting segments
are only emitted together with the arc points, and the elbow-to-hand
segment falls back to the handlebar centre when the arc end is missing. -/
theorem c9_segments_reference_existing_points (bike : BikeData) (mode : AlignmentMode) :
    ∀ s ∈ (calculateBikeGeometry bike mode).segments ++
        (calculateBikeGeometry bike mode).riderSegments,
      (lookupPoint (calculateBikeGeometry bike mode).points s.fromId).isSome = true ∧
      (lookupPoint (calculateBikeGeometry bike mode).points s.toId).isSome = true := by
  intro s hs
  simp only [calculateBikeGeometry] at hs ⊢
  by_cases harc : |bike.cockpit.handlebarDrop * SCALE| < 0.001
  · have harc2 : createHandlebarArc (handlebarCenter bike) bike.cockpit.handlebarDrop =
        ([], []) := by
      unfold createHandlebarArc
      dsimp only
      rw [if_pos harc]
    rcases hde : handlebarDropEnd bike with _ | p <;>
      rcases hhp : bike.cockpit.handPosition with _ | _ <;>
      simp only [segments, riderSegments, pointsMap, arcData, staticSegments, harc2, hde,
        hhp, List.nil_append, List.append_nil, List.cons_append, List.mem_cons,
        List.not_mem_nil, or_false] at hs ⊢ <;>
      rcases hs with rfl | rfl | rfl | rfl | rfl | rfl | rfl | rfl | rfl | rfl | rfl | rfl |
        rfl | rfl | rfl | rfl | rfl | rfl | rfl | rfl | rfl | rfl | rfl | rfl <;>
      exact ⟨rfl, rfl⟩
  · rcases hde : handlebarDropEnd bike with _ | p <;>
      rcases hhp : bike.cockpit.handPosition with _ | _ <;>
      [skip; skip; skip; skip] <;>
      · simp only [segments, riderSegments, pointsMap, arcData, createHandlebarArc,
          staticSegments, hde, hhp] at hs ⊢
        rw [if_neg harc] at hs
        rw [if_neg harc]
        dsimp only at hs ⊢
        simp only [List.cons_append, List.nil_append, List.append_nil, List.mem_cons,
          List.mem_append, List.mem_map, List.mem_range, List.not_mem_nil, or_false] at hs
        rcases hs with rfl | (⟨i, hi, rfl⟩ | hstat) | hrid
        · exact ⟨rfl, rfl⟩
        · norm_num [HANDLEBAR_ARC_STEPS] at hi
          interval_cases i <;> exact ⟨rfl, rfl⟩
        · rcases hstat with rfl | rfl | rfl | rfl | rfl | rfl | rfl | rfl | rfl | rfl |
            rfl | rfl | rfl | rfl | rfl | rfl <;> exact ⟨rfl, rfl⟩
        · rcases hrid with rfl | rfl | rfl | rfl | rfl | rfl | rfl | rfl <;>
            exact ⟨rfl, rfl⟩

/-- Witness for C9: on the concrete-scenario bike, the top-tube segment
from bb to headTubeTop references two points that both exist. -/
theorem c9_segments_reference_existing_points_witness :
    (lookupPoint (calculateBikeGeometry bikeC1 AlignmentMode.bb).points
      (Segment.mk "bb" "headTubeTop").fromId).isSome = true ∧
    (lookupPoint (calculateBikeGeometry bikeC1 AlignmentMode.bb).points
      (Segment.mk "bb" "headTubeTop").toId).isSome = true :=
  c9_segments_reference_existing_points bikeC1 AlignmentMode.bb ⟨"bb", "headTubeTop"⟩
    (by simp [calculateBikeGeometry, segments, staticSegments, riderSegments,
      List.mem_append, List.mem_cons])

/-- The checked square root always succeeds on a sum of two squares. -/
theorem sqrtD_sum_sq (x y : ℝ) : sqrtD (x * x + y * y) = some (Real.sqrt (x * x + y * y)) := by
  unfold sqrtD
  rw [if_pos (add_nonneg (mul_self_nonneg x) (mul_self_nonneg y))]

/-- The checked arc cosine always succeeds on a clamped argument. -/
theorem arccosD_clamp (v : ℝ) :
    arccosD (max (-1) (min 1 v)) = some (Real.arccos (max (-1) (min 1 v))) := by
  unfold arccosD
  rw [if_pos ⟨le_max_left _ _, max_le (by norm_num) (min_le_left _ _)⟩]

/-- The checked division succeeds exactly on nonzero denominators. -/
theorem divD_ne (a b : ℝ) (h : b ≠ 0) : divD a b = some (a / b) := by
  unfold divD
  rw [if_neg h]

/-- The checked IK step succeeds and agrees with the total one whenever
both segment lengths are positive and distinct (as they always are for a
rider with positive inseam and height). -/
theorem ikJointChecked_eq (base target : Point2D) (b c : ℝ)
    (hb : 0 < b) (hc : 0 < c) (hbc : b ≠ c) :
    ikJointChecked base target b c = some (ikJoint base target b c) := by
  unfold ikJointChecked ikJoint
  dsimp only
  rw [sqrtD_sum_sq]
  simp only [Option.some_bind]
  split_ifs with h1 h2
  · rw [divD_ne _ _ (ne_of_gt (by linarith : (0 : ℝ) < b + c))]
    rfl
  · rfl
  · have hdistpos : 0 < Real.sqrt ((target.x - base.x) * (target.x - base.x) +
        (target.y - base.y) * (target.y - base.y)) := by
      have habs : 0 < |b - c| := abs_pos.mpr (sub_ne_zero.mpr hbc)
      have := not_lt.mp h2
      linarith
    rw [divD_ne _ _ (ne_of_gt (mul_pos (mul_pos two_pos hdistpos) hb))]
    simp only [Option.some_bind]
    rw [arccosD_clamp]
    rfl

/-- The checked foot contact point succeeds and agrees with the total one
whenever the total leg length is nonzero. -/
theorem footContactChecked_eq (bike : BikeData) (h : totalLegLength bike ≠ 0) :
    footContactChecked bike = some (footContact bike) := by
  unfold footContactChecked footAngleChecked stretchChecked distanceChecked
  rw [sqrtD_sum_sq]
  simp only [Option.some_bind]
  rw [divD_ne _ _ h]
  rfl

/-- The checked fixed-crank knee metric succeeds and agrees with the
total one whenever the anatomical inseam is positive. -/
theorem calculateKneeAngleAtPedalAngleChecked_eq (pedalAngleDeg crankLength : ℝ)
    (seatPos bbPos : Point2D)
    (riderInseam cleatDrop hipJointOffsetScaled torsoAngleRad : ℝ)
    (h : 0 < riderInseam + hipJointOffsetScaled / SCALE) :
    calculateKneeAngleAtPedalAngleChecked pedalAngleDeg crankLength seatPos bbPos
        riderInseam cleatDrop hipJointOffsetScaled torsoAngleRad =
      some (calculateKneeAngleAtPedalAngle pedalAngleDeg crankLength seatPos bbPos
        riderInseam cleatDrop hipJointOffsetScaled torsoAngleRad) := by
  unfold calculateKneeAngleAtPedalAngleChecked calculateKneeAngleAtPedalAngle
  dsimp only
  rw [ikJointChecked_eq _ _ _ _ ?_ ?_ ?_]
  · rfl
  · unfold lowerLegRatio SCALE
    unfold SCALE at h
    nlinarith
  · unfold upperLegRatio SCALE
    unfold SCALE at h
    nlinarith
  · unfold lowerLegRatio upperLegRatio SCALE
    unfold SCALE at h
    nlinarith

/-- An all-zero bike: every numeric field is the finite number zero. -/
def bikeC2 : BikeData :=
  { brand := "", model := "", size := ""
    geometry :=
      { stack := 0, reach := 0, headTubeAngle := 0, seatTubeAngle := 0,
        forkLength := 0, bbDrop := 0, headTubeLength := 0, seatTubeLength := 0,
        chainstayLength := 0, frontCenter := 0 }
    cockpit :=
      { spacerHeight := 0, headsetCap := 0, stemLength := 0, stemAngle := 0,
        handlebarReach := 0, handlebarDrop := 0, crankLength := 0, pedalAngle := 0,
        handPosition := HandPosition.hoods, seatPostLength := 0 }
    rider :=
      { riderHeight := 0, riderInseam := 0, torsoAngle := 0, shoeThickness := 0 } }

/-- C2, counterexample: with the finite input riderInseam = 0 the total
leg length is zero and the stretch computation divides by zero, so the
checked engine fails: in the source language the foot and knee
coordinates come out NaN, not finite. -/
theorem c2_counterexample : calculateBikeGeometryChecked bikeC2 AlignmentMode.bb = none := by
  have hfoot : footContactChecked bikeC2 = none := by
    unfold footContactChecked footAngleChecked stretchChecked distanceChecked
    rw [sqrtD_sum_sq]
    simp only [Option.some_bind]
    have htot : totalLegLength bikeC2 = 0 := by
      norm_num [totalLegLength, lowerLegLength, upperLegLength, lowerLegRatio,
        upperLegRatio, SCALE, bikeC2]
    unfold divD
    rw [if_pos htot]
    rfl
  unfold calculateBikeGeometryChecked
  rw [hfoot]
  rfl

/-- C2, amended: for every input whose rider inseam and height are
positive (in particular every physically meaningful finite input), every
checked operation of the engine succeeds - each square root sees a
nonnegative argument, each arc cosine a clamped one and no division by
zero occurs - and the checked engine returns exactly the total result. -/
theorem c2_amended_finite_outputs (bike : BikeData) (mode : AlignmentMode)
    (hI : 0 < bike.rider.riderInseam) (hH : 0 < bike.rider.riderHeight) :
    calculateBikeGeometryChecked bike mode = some (calculateBikeGeometry bike mode) := by
  have hanat : 0 < anatomicalInseam bike := by
    unfold anatomicalInseam hipJointOffset SCALE
    have h : bike.rider.riderInseam * 0.095 * 0.8 / 0.8 = bike.rider.riderInseam * 0.095 := by
      ring
    rw [h]
    nlinarith
  have hanat2 : 0 < bike.rider.riderInseam + hipJointOffset bike / SCALE := hanat
  have htot : totalLegLength bike ≠ 0 := by
    unfold totalLegLength lowerLegLength upperLegLength lowerLegRatio upperLegRatio SCALE
    nlinarith
  have hb1 : 0 < lowerLegLength bike := by
    unfold lowerLegLength lowerLegRatio SCALE
    nlinarith
  have hc1 : 0 < upperLegLength bike := by
    unfold upperLegLength upperLegRatio SCALE
    nlinarith
  have hbc1 : lowerLegLength bike ≠ upperLegLength bike := by
    refine ne_of_lt ?_
    unfold lowerLegLength upperLegLength lowerLegRatio upperLegRatio SCALE
    nlinarith
  have hb2 : 0 < newLowerLegLength bike := by
    unfold newLowerLegLength lowerLegRatio SCALE
    nlinarith
  have hc2 : 0 < newUpperLegLength bike := by
    unfold newUpperLegLength upperLegRatio SCALE
    nlinarith
  have hbc2 : newLowerLegLength bike ≠ newUpperLegLength bike := by
    refine ne_of_lt ?_
    unfold newLowerLegLength newUpperLegLength lowerLegRatio upperLegRatio SCALE
    nlinarith
  have harm1 : 0 < upperArmScaled bike := by
    unfold upperArmScaled upperArmRatio SCALE
    nlinarith
  have harm2 : 0 < lowerArmScaled bike := by
    unfold lowerArmScaled lowerArmRatio SCALE
    nlinarith
  have harmne : upperArmScaled bike ≠ lowerArmScaled bike := by
    refine ne_of_gt ?_
    unfold upperArmScaled lowerArmScaled upperArmRatio lowerArmRatio SCALE
    nlinarith
  unfold calculateBikeGeometryChecked
  rw [footContactChecked_eq bike htot]
  simp only [Option.some_bind]
  rw [ikJointChecked_eq _ _ _ _ hb1 hc1 hbc1]
  simp only [Option.some_bind]
  rw [ikJointChecked_eq _ _ _ _ hb2 hc2 hbc2]
  simp only [Option.some_bind]
  rw [ikJointChecked_eq _ _ _ _ harm1 harm2 harmne]
  simp only [Option.some_bind]
  rw [calculateKneeAngleAtPedalAngleChecked_eq _ _ _ _ _ _ _ _ hanat2]
  simp only [Option.some_bind]
  rw [calculateKneeAngleAtPedalAngleChecked_eq _ _ _ _ _ _ _ _ hanat2]
  simp only [Option.some_bind]
  rw [ikJointChecked_eq _ _ _ _ hb2 hc2 hbc2]
  rfl

/-- Witness for C2: on the concrete-scenario geometry with a rider of
height 1800 and inseam 800, the checked engine succeeds and agrees with
the total engine. -/
theorem c2_amended_finite_outputs_witness :
    calculateBikeGeometryChecked
        { bikeC1 with rider :=
            { riderHeight := 1800, riderInseam := 800, torsoAngle := 40, shoeThickness := 20 } }
        AlignmentMode.bb =
      some (calculateBikeGeometry
        { bikeC1 with rider :=
            { riderHeight := 1800, riderInseam := 800, torsoAngle := 40, shoeThickness := 20 } }
        AlignmentMode.bb) :=
  c2_amended_finite_outputs _ AlignmentMode.bb (by norm_num) (by norm_num)

end BikeGeo
